import Mathlib

set_option maxHeartbeats 2000000

/-!
Shallow embedding of the wonnx operator compiler (`src/wonnx/src/compiler.rs`),
the buffer helper (`src/wonnx/src/resource.rs`) and the legacy compiler
(`src/src/compiler.rs`).

Machine integers are modelled as `Nat` (unsigned) and `Int` (signed), with an
explicit truncation (`% 2^32`, `% 2^64`) wherever the source performs an `as`
cast that can change the value.  Rust's `/` and `%` on `i64` are modelled with
`Int.tdiv` / `Int.tmod` (truncation towards zero), matching Rust semantics.
Out-of-bounds indexing, which panics in Rust, is modelled with `List.getD`
defaults; the claims only quantify over panic-free executions.

Template rendering (the `tera` engine) is external to the sources, so a
compiled node carries the chosen template path and the bound variable
environment instead of the rendered shader text.  The environment is an
insertion-ordered list in which a later binding for a key overrides an
earlier one, mirroring `tera::Context::insert`.
-/

/-- Modelled from the spec: `ceil` from the utility module (the `utils`
module is not among the provided sources); ceiling division on unsigned
(`u64`) integers. -/
def ceil (a b : Nat) : Nat := (a + b - 1) / b

/-- `ceil` for the legacy compiler, which works on `i64` values
(truncating division, as in Rust). -/
def ceil_i64 (a b : Int) : Int := Int.tdiv (a + b - 1) b

/-- Truncating cast `u64 -> u32` (`as u32` in the source). -/
def as_u32 (x : Nat) : Nat := x % 4294967296

/-- Truncating cast `i64 -> u32` (`as u32`): keeps the low 32 bits. -/
def i64_as_u32 (x : Int) : Nat := (x.emod 4294967296).toNat

/-- Truncating cast `i64 -> usize` (`as usize`): keeps the low 64 bits. -/
def i64_as_usize (x : Int) : Nat := (x.emod 18446744073709551616).toNat

/-- Truncating cast `i64 -> i32` (`as i32`). -/
def i64_as_i32 (x : Int) : Int :=
  let r := x.emod 4294967296
  if r < 2147483648 then r else r - 4294967296

/-- `Range` iteration `a..b` over `i64`, as a list (empty when `a ≥ b`). -/
def int_range (a b : Int) : List Int :=
  (List.range (b - a).toNat).map (fun i => a + i)

/-- Maximum number of workgroups per dispatch dimension (WebGPU limit). -/
def MAX_COMPUTE_WORKGROUPS_PER_DIMENSION : Nat := 65535

/-- Maximum workgroup size, X dimension (WebGPU limit). -/
def MAX_WORKGROUP_SIZE_X : Nat := 256

/-- Maximum workgroup size, Y dimension (WebGPU limit). -/
def MAX_WORKGROUP_SIZE_Y : Nat := 256

/-- Maximum workgroup size, Z dimension (WebGPU limit). -/
def MAX_WORKGROUP_SIZE_Z : Nat := 64

/-- Modelled from the spec: `ScalarType` (utility module), the closed set of
scalar element types. -/
inductive ScalarType where
  | F32
  | I32
  | I64
  | U8
deriving DecidableEq, Repr

/-- Modelled from the spec: the WGSL name of a scalar type. -/
def ScalarType.wgsl_type_name : ScalarType → String
  | .F32 => "f32"
  | .I32 => "i32"
  | .I64 => "i64"
  | .U8 => "u8"

/-- Modelled from the spec: byte stride of a scalar type. -/
def ScalarType.stride : ScalarType → Nat
  | .F32 => 4
  | .I32 => 4
  | .I64 => 8
  | .U8 => 1

/-- Modelled from the spec: `ScalarType::from_i32`, decoding the
operator-format data-type enum (`FLOAT = 1`, `UINT8 = 2`, `INT32 = 6`,
`INT64 = 7`); any other code is an invalid type. -/
def ScalarType.from_i32 (code : Int) : Option ScalarType :=
  if code = 1 then some .F32
  else if code = 2 then some .U8
  else if code = 6 then some .I32
  else if code = 7 then some .I64
  else none

/-- Modelled from the spec: `Shape` — ordered dimension sizes (`u64`) plus a
scalar element type. -/
structure Shape where
  dims : List Nat
  data_type : ScalarType
deriving DecidableEq, Repr

/-- Modelled from the spec: `element_count` is the product of the dims. -/
def Shape.element_count (s : Shape) : Nat := s.dims.prod

/-- Modelled from the spec: `rank` is the number of dims. -/
def Shape.rank (s : Shape) : Nat := s.dims.length

/-- Modelled from the spec: `dim(i)`; out-of-range access panics in Rust and
is modelled by the default `0`. -/
def Shape.dim (s : Shape) (i : Nat) : Nat := s.dims.getD i 0

/-- Modelled from the spec: the chunk vector
`[Π dims[1..], Π dims[2..], …, 1]`; its length equals the rank. -/
def Shape.chunks (s : Shape) : List Nat :=
  (List.range s.dims.length).map (fun i => (s.dims.drop (i + 1)).prod)

/-- Modelled from the spec: a textual rendering of a shape (the exact
`Display` format of the upstream implementation is not specified). -/
def Shape.display (s : Shape) : String :=
  String.intercalate "x" (s.dims.map toString) ++ ":" ++ s.data_type.wgsl_type_name

/-- Modelled from the spec: `MultiType` — scalar, vector or matrix of a
scalar type. -/
inductive MultiType where
  | Scalar (st : ScalarType)
  | Vec (st : ScalarType) (n : Nat)
  | Mat (st : ScalarType) (r c : Nat)
deriving DecidableEq, Repr

/-- Modelled from the spec: `MultiType::for_size` chooses the widest vector
width in {4, 2, 1} that divides `n`. -/
def MultiType.for_size (n : Nat) (st : ScalarType) : MultiType :=
  if n % 4 = 0 then .Vec st 4
  else if n % 2 = 0 then .Vec st 2
  else .Scalar st

/-- Modelled from the spec: number of scalar elements of a `MultiType`. -/
def MultiType.elements : MultiType → Nat
  | .Scalar _ => 1
  | .Vec _ n => n
  | .Mat _ r c => r * c

/-- Modelled from the spec: byte stride; a 3-vector has the stride of a
4-vector (WGSL alignment). -/
def MultiType.stride : MultiType → Nat
  | .Scalar st => st.stride
  | .Vec st 3 => 4 * st.stride
  | .Vec st n => n * st.stride
  | .Mat st r c => r * c * st.stride

/-- Modelled from the spec: the WGSL type name of a `MultiType`. -/
def MultiType.wgsl_type_name : MultiType → String
  | .Scalar st => st.wgsl_type_name
  | .Vec st n => "vec" ++ toString n ++ "<" ++ st.wgsl_type_name ++ ">"
  | .Mat st r c => "mat" ++ toString r ++ "x" ++ toString c ++ "<" ++ st.wgsl_type_name ++ ">"

/-- Modelled from the spec: a typed attribute value (tagged union with
integer / float / string / list variants). -/
inductive AttrValue where
  | aInt (i : Int)
  | aFloat (f : Float)
  | aStr (s : String)
  | aInts (l : List Int)
  | aFloats (l : List Float)

/-- An operator node: op-type string and attribute map.  The input/output
tensor *names* are irrelevant to compilation (shapes are passed separately)
and are not modelled. -/
structure Node where
  op_type : String
  attrs : List (String × AttrValue)

/-- Modelled from the spec: attribute lookup by name. -/
def find_attr (node : Node) (name : String) : Option AttrValue :=
  (node.attrs.find? (fun p => p.1 = name)).map (fun p => p.2)

/-- The compile-error taxonomy of `src/wonnx/src/compiler.rs`. -/
inductive CompileError where
  | DimensionsMissing (tensor node_name : String)
  | AttributeNotFound (attrib : String)
  | InvalidOperation (op : String)
  | UnimplementedOp (op : String)
  | UnimplementedVariant (variant op : String)
  | UnsupportedOpsetVersion (v : Int)
  | InvalidAttributeValue (attrib value : String) (opset_version : Int)
  | InvalidInputShape (input_index : Nat) (input_shape : Shape)
  | ComputeLimitExceeded (dimension : String) (requested limit : Nat)
  | TypesDisagree (a b : ScalarType)
  | TypeUnderspecified
  | InvalidType
deriving DecidableEq, Repr

/-- Modelled from the spec: `get_attribute::<i64>`.  A present attribute is
decoded; an absent one falls back to the default or fails with an
attribute-not-found error.  A present attribute of the wrong tag is
unspecified by the spec and is modelled as the not-found error. -/
def get_attribute_i64 (name : String) (dflt : Option Int) (node : Node) :
    Except CompileError Int :=
  match find_attr node name with
  | some (.aInt v) => .ok v
  | some _ => .error (.AttributeNotFound name)
  | none =>
    match dflt with
    | some d => .ok d
    | none => .error (.AttributeNotFound name)

/-- Modelled from the spec: `get_attribute::<f32>` (see `get_attribute_i64`). -/
def get_attribute_f32 (name : String) (dflt : Option Float) (node : Node) :
    Except CompileError Float :=
  match find_attr node name with
  | some (.aFloat v) => .ok v
  | some _ => .error (.AttributeNotFound name)
  | none =>
    match dflt with
    | some d => .ok d
    | none => .error (.AttributeNotFound name)

/-- Modelled from the spec: `get_attribute::<String>` (see `get_attribute_i64`). -/
def get_attribute_string (name : String) (dflt : Option String) (node : Node) :
    Except CompileError String :=
  match find_attr node name with
  | some (.aStr v) => .ok v
  | some _ => .error (.AttributeNotFound name)
  | none =>
    match dflt with
    | some d => .ok d
    | none => .error (.AttributeNotFound name)

/-- Modelled from the spec: `get_attribute::<Vec<i64>>` (see `get_attribute_i64`). -/
def get_attribute_ints (name : String) (dflt : Option (List Int)) (node : Node) :
    Except CompileError (List Int) :=
  match find_attr node name with
  | some (.aInts v) => .ok v
  | some _ => .error (.AttributeNotFound name)
  | none =>
    match dflt with
    | some d => .ok d
    | none => .error (.AttributeNotFound name)

/-- Modelled from the spec: `get_attribute::<Vec<f32>>` (see `get_attribute_i64`). -/
def get_attribute_floats (name : String) (dflt : Option (List Float)) (node : Node) :
    Except CompileError (List Float) :=
  match find_attr node name with
  | some (.aFloats v) => .ok v
  | some _ => .error (.AttributeNotFound name)
  | none =>
    match dflt with
    | some d => .ok d
    | none => .error (.AttributeNotFound name)

/-- A value bound into the template environment (`tera::Context`). -/
inductive TemplateValue where
  | tInt (i : Int)
  | tNat (n : Nat)
  | tStr (s : String)
  | tIntList (l : List Int)
  | tNatList (l : List Nat)
  | tNatListList (l : List (List Nat))
  | tIntListList (l : List (List Int))
  | tFloat (f : Float)
  | tFloatList (l : List Float)

/-- A template environment: bindings in insertion order. -/
abbrev Env := List (String × TemplateValue)

/-- Lookup in a template environment; a later insert overrides an earlier
one (as in `tera::Context::insert`). -/
def context_get (env : Env) (k : String) : Option TemplateValue :=
  env.foldl (fun acc p => if p.1 = k then some p.2 else acc) none

/-- The per-node compilation result of the branch selection: scalar type,
template path and thread extent (cf. `NodeTemplate` in the source). -/
structure NodeTemplate where
  scalar_type : ScalarType
  template : String
  threads : Nat × Nat × Nat

/-- `CompiledNode`: chosen template, dispatch extent, and the bound template
environment (standing in for the rendered shader text). -/
structure CompiledNode where
  template : String
  threads : Nat × Nat × Nat
  env : Env

/-- Default shape used to model out-of-range shape indexing (a panic in
Rust). -/
def default_shape : Shape := ⟨[], .F32⟩

/-- `shapes[i]` (panics in Rust when out of range). -/
def shape_at (l : List Shape) (i : Nat) : Shape := l.getD i default_shape

/-- `input_lengths[i]` / `output_lengths[i]`: the element count vector,
indexed (panics in Rust when out of range). -/
def lens_at (l : List Shape) (i : Nat) : Nat :=
  (l.map Shape.element_count).getD i 0

/-- `i_dims[i]` / `o_dims[i]` (panics in Rust when out of range). -/
def dims_at (l : List Shape) (i : Nat) : List Nat :=
  (l.map Shape.dims).getD i []

/-- `agreed_type`: the single scalar type shared by the given input and
output shapes (`src/wonnx/src/compiler.rs`, two accumulation loops with an
early `TypesDisagree` return, then `TypeUnderspecified` when nothing was
seen).  `check_shapes` is one accumulation loop. -/
def check_shapes (dt : Option ScalarType) :
    List Shape → Except CompileError (Option ScalarType)
  | [] => .ok dt
  | s :: rest =>
    match dt with
    | some d =>
      if d = s.data_type then check_shapes (some d) rest
      else .error (.TypesDisagree d s.data_type)
    | none => check_shapes (some s.data_type) rest

/-- `agreed_type` (see `check_shapes`). -/
def agreed_type (input_shapes output_shapes : List Shape) :
    Except CompileError ScalarType :=
  match check_shapes none input_shapes with
  | .error e => .error e
  | .ok dt =>
    match check_shapes dt output_shapes with
    | .error e => .error e
    | .ok (some d) => .ok d
    | .ok none => .error .TypeUnderspecified

/-- `workgroup_size`: number of threads and workgroup size for `x`
invocations (`src/wonnx/src/compiler.rs` lines 1012-1056). -/
def workgroup_size (x max_threads max_workgroup_size : Nat) :
    Except CompileError (Nat × Nat) :=
  let max_x := max_threads
  if x > max_x then
    let wgs := as_u32 (ceil x max_x)
    let threads := as_u32 (ceil x wgs)
    if threads > max_threads then
      .error (.ComputeLimitExceeded "threads" threads max_threads)
    else if wgs > max_workgroup_size then
      .error (.ComputeLimitExceeded "workgroup size" wgs max_workgroup_size)
    else .ok (threads, wgs)
  else .ok (as_u32 x, 1)

/-- Cumulative (prefix) sums, as computed in the `Concat` branch. -/
def cum_sum (acc : Nat) : List Nat → List Nat
  | [] => []
  | x :: rest => (acc + x) :: cum_sum (acc + x) rest

/-- Chunk vector computed inline from a dims list (`Transpose` branch of the
current compiler and both chunk loops of the legacy compiler):
`[Π dims[1..], …, Π dims[len-1..], 1]`. -/
def chunks_inline (dims : List Nat) : List Nat :=
  (((List.range dims.length).drop 1).map (fun i => (dims.drop i).prod)) ++ [1]

/-- `chunks_inline` on `i64` dims (legacy compiler). -/
def chunks_inline_int (dims : List Int) : List Int :=
  (((List.range dims.length).drop 1).map (fun i => (dims.drop i).prod)) ++ [1]

/-- The unary-map branch (`Abs | Acos | … | Reciprocal`). -/
def compile_map (input_shapes output_shapes : List Shape) :
    Except CompileError (NodeTemplate × Env) :=
  match workgroup_size (ceil (lens_at output_shapes 0) 4)
      MAX_COMPUTE_WORKGROUPS_PER_DIMENSION MAX_WORKGROUP_SIZE_X with
  | .error e => .error e
  | .ok (x_threads, workgroup_size_x) =>
    match agreed_type input_shapes output_shapes with
    | .error e => .error e
    | .ok st =>
      .ok ({ scalar_type := st, template := "endomorphism/map.wgsl",
             threads := (x_threads, 1, 1) },
           [("workgroup_size_x", .tNat workgroup_size_x)])

/-- The reduction branch (`ReduceMean | ReduceSum | … | ReduceSumSquare`). -/
def compile_reduce (node : Node) (input_shapes output_shapes : List Shape) :
    Except CompileError (NodeTemplate × Env) :=
  let rank0 := (dims_at input_shapes 0).length
  let all_axes : List Int := int_range 0 (rank0 : Int)
  match get_attribute_ints "axes" (some all_axes) node with
  | .error e => .error e
  | .ok axes_raw =>
    let axes := axes_raw.map (fun idx => if idx < 0 then (rank0 : Int) + idx else idx)
    match agreed_type (input_shapes.take 1) output_shapes with
    | .error e => .error e
    | .ok st =>
      let dims_removed : List Int :=
        (shape_at input_shapes 0).dims.enum.map
          (fun p => if axes.contains (p.1 : Int) then 1 else (p.2 : Int))
      let chunks_with_dims_preserved :=
        (Shape.mk (dims_removed.map Int.toNat) st).chunks
      match workgroup_size (lens_at output_shapes 0)
          MAX_COMPUTE_WORKGROUPS_PER_DIMENSION MAX_WORKGROUP_SIZE_X with
      | .error e => .error e
      | .ok (x_threads, workgroup_size_x) =>
        .ok ({ scalar_type := st, template := "pool/reduce.wgsl",
               threads := (x_threads, 1, 1) },
             [("workgroup_size_x", .tNat workgroup_size_x),
              ("chunks_with_dims_preserved", .tNatList chunks_with_dims_preserved),
              ("axes", .tIntList axes)])

/-- The `OneHot` branch. -/
def compile_onehot (node : Node) (input_shapes output_shapes : List Shape) :
    Except CompileError (NodeTemplate × Env) :=
  match get_attribute_i64 "axis" (some (-1)) node with
  | .error e => .error e
  | .ok axis =>
    if axis ≠ -1 then
      .error (.UnimplementedVariant ("axis=" ++ toString axis) "OneHot")
    else if (shape_at input_shapes 1).element_count ≠ 1 then
      .error (.InvalidInputShape 1 (shape_at input_shapes 1))
    else if (shape_at input_shapes 2).element_count ≠ 2 then
      .error (.InvalidInputShape 2 (shape_at input_shapes 2))
    else
      match workgroup_size (lens_at input_shapes 0)
          MAX_COMPUTE_WORKGROUPS_PER_DIMENSION MAX_WORKGROUP_SIZE_X with
      | .error e => .error e
      | .ok (x_threads, workgroup_size_x) =>
        .ok ({ scalar_type := (shape_at output_shapes 0).data_type,
               template := "endomorphism/onehot.wgsl",
               threads := (x_threads, 1, 1) },
             [("workgroup_size_x", .tNat workgroup_size_x)])

/-- The `Gather` branch. -/
def compile_gather (node : Node) (input_shapes output_shapes : List Shape) :
    Except CompileError (NodeTemplate × Env) :=
  match get_attribute_i64 "axis" (some 0) node with
  | .error e => .error e
  | .ok axis =>
    if axis ≠ 0 then
      .error (.UnimplementedVariant ("axis=" ++ toString axis) "Gather")
    else
      let elements_per_index := ((shape_at input_shapes 0).chunks).getD 0 0
      match agreed_type (input_shapes.take 1) output_shapes with
      | .error e => .error e
      | .ok st =>
        let chunk_type := MultiType.for_size elements_per_index st
        let chunk_size := chunk_type.elements
        match workgroup_size (lens_at input_shapes 1)
            MAX_COMPUTE_WORKGROUPS_PER_DIMENSION MAX_WORKGROUP_SIZE_X with
        | .error e => .error e
        | .ok (x_threads, workgroup_size_x) =>
          match workgroup_size (ceil elements_per_index chunk_size)
              MAX_COMPUTE_WORKGROUPS_PER_DIMENSION MAX_WORKGROUP_SIZE_Y with
          | .error e => .error e
          | .ok (y_threads, workgroup_size_y) =>
            .ok ({ scalar_type := st, template := "endomorphism/gather.wgsl",
                   threads := (x_threads, y_threads, 1) },
                 [("chunk_type", .tStr chunk_type.wgsl_type_name),
                  ("chunk_size", .tNat chunk_size),
                  ("workgroup_size_x", .tNat workgroup_size_x),
                  ("workgroup_size_y", .tNat workgroup_size_y)])

/-- The `Cast` branch: the output scalar type is never consulted — the
agreed type is computed over the inputs alone. -/
def compile_cast (node : Node) (input_shapes output_shapes : List Shape) :
    Except CompileError (NodeTemplate × Env) :=
  match get_attribute_i64 "to" none node with
  | .error e => .error e
  | .ok to_value =>
    match ScalarType.from_i32 (i64_as_i32 to_value) with
    | none => .error .InvalidType
    | some cast_to_type =>
      match workgroup_size (ceil (lens_at output_shapes 0) 4)
          MAX_COMPUTE_WORKGROUPS_PER_DIMENSION MAX_WORKGROUP_SIZE_X with
      | .error e => .error e
      | .ok (x_threads, workgroup_size_x) =>
        match agreed_type input_shapes [] with
        | .error e => .error e
        | .ok st =>
          .ok ({ scalar_type := st, template := "endomorphism/cast.wgsl",
                 threads := (x_threads, 1, 1) },
               [("cast_to_type", .tStr cast_to_type.wgsl_type_name),
                ("workgroup_size_x", .tNat workgroup_size_x)])

/-- The Softmax default-axis match on the opset version
(`src/wonnx/src/compiler.rs` lines 436-441). -/
def softmax_default_axis (opset_version : Int) : Except CompileError Int :=
  if 1 ≤ opset_version ∧ opset_version ≤ 10 then .ok 1
  else if 11 ≤ opset_version ∧ opset_version ≤ 12 then .ok 1
  else if 13 ≤ opset_version ∧ opset_version ≤ 15 then .ok (-1)
  else .error (.UnsupportedOpsetVersion opset_version)

/-- The Softmax range check, axis=1 restriction and template assembly after
axis normalization (`src/wonnx/src/compiler.rs` lines 459-481). -/
def softmax_checked_axis (axis : Int) (input_shapes output_shapes : List Shape)
    (opset_version : Int) : Except CompileError (NodeTemplate × Env) :=
  if axis ≥ ((shape_at input_shapes 0).rank : Int) then
    .error (.InvalidAttributeValue "axis" (toString axis) opset_version)
  else if axis ≠ 1 then
    .error (.UnimplementedVariant
      ("softmax on an axis (" ++ toString axis ++
       ") other than the second with [1,n] inputs") "Softmax")
  else
    match agreed_type input_shapes output_shapes with
    | .error e => .error e
    | .ok st =>
      .ok ({ scalar_type := st, template := "endomorphism/softmax.wgsl",
             threads := (1, 1, 1) }, [])

/-- The Softmax branch after the axis attribute has been read: negative-axis
normalization (only for opset ≥ 13; `src/wonnx/src/compiler.rs` lines 447-457)
followed by the checked tail. -/
def compile_softmax_with_axis (ga : Except CompileError Int)
    (input_shapes output_shapes : List Shape) (opset_version : Int) :
    Except CompileError (NodeTemplate × Env) :=
  match ga with
  | .error e => .error e
  | .ok a =>
    match (if a < 0 then
             if 13 ≤ opset_version then
               .ok (a + ((shape_at input_shapes 0).rank : Int))
             else
               .error (.InvalidAttributeValue "axis" (toString a) opset_version)
           else .ok a : Except CompileError Int) with
    | .error e => .error e
    | .ok axis => softmax_checked_axis axis input_shapes output_shapes opset_version

def compile_softmax (node : Node) (input_shapes output_shapes : List Shape)
    (opset_version : Int) : Except CompileError (NodeTemplate × Env) :=
  match softmax_default_axis opset_version with
  | .error e => .error e
  | .ok default_axis =>
    compile_softmax_with_axis (get_attribute_i64 "axis" (some default_axis) node)
      input_shapes output_shapes opset_version

/-- The infix operator string for a binary arithmetic op (the inner
`op_type` rebinding match of the arithmetic branch). -/
def binary_op_string (op : String) : Except CompileError String :=
  match op with
  | "Add" => .ok "+"
  | "And" => .ok "&"
  | "Div" => .ok "/"
  | "Equal" => .ok "=="
  | "Greater" => .ok ">"
  | "GreaterOrEqual" => .ok ">="
  | "Less" => .ok "<"
  | "LessOrEqual" => .ok "<="
  | "Mod" => .ok "%"
  | "Mul" => .ok "*"
  | "Or" => .ok "|"
  | "Sub" => .ok "-"
  | _ => .error (.UnimplementedOp op)

/-- The binary-arithmetic branch (`Add | And | … | Sub`). -/
def compile_arithmetic (node : Node) (input_shapes output_shapes : List Shape) :
    Except CompileError (NodeTemplate × Env) :=
  match get_attribute_f32 "coefficient" (some 1.0) node with
  | .error e => .error e
  | .ok coefficient =>
    match binary_op_string node.op_type with
    | .error e => .error e
    | .ok op_string =>
      match workgroup_size (ceil (lens_at output_shapes 0) 4)
          MAX_COMPUTE_WORKGROUPS_PER_DIMENSION MAX_WORKGROUP_SIZE_X with
      | .error e => .error e
      | .ok (x_threads, workgroup_size_x) =>
        match agreed_type input_shapes output_shapes with
        | .error e => .error e
        | .ok st =>
          .ok ({ scalar_type := st, template := "endomorphism/arithmetic.wgsl",
                 threads := (x_threads, 1, 1) },
               [("coefficient", .tFloat coefficient),
                ("op_type", .tStr op_string),
                ("workgroup_size_x", .tNat workgroup_size_x)])

/-- The `BatchNormalization` branch. -/
def compile_batchnorm (node : Node) (input_shapes output_shapes : List Shape)
    (opset_version : Int) : Except CompileError (NodeTemplate × Env) :=
  match get_attribute_i64 "spatial" none node with
  | .ok spatial_value =>
    if opset_version < 9 then
      .error (.UnimplementedVariant "spatial" "BatchNormalization")
    else
      .error (.InvalidAttributeValue "spatial" (toString spatial_value) opset_version)
  | .error _ =>
    let s0 := shape_at input_shapes 0
    if s0.rank ≤ 2 ∨ s0.rank > 4 then
      .error (.UnimplementedVariant ("with input " ++ s0.display) "BatchNormalization")
    else
      let q : Nat × Nat × Nat × Nat :=
        match s0.rank with
        | 2 => (1, 1, s0.dim 0, s0.dim 1)
        | 3 => (1, s0.dim 0, s0.dim 1, s0.dim 2)
        | 4 => (s0.dim 0, s0.dim 1, s0.dim 2, s0.dim 3)
        | _ => (0, 0, 0, 0)  -- unreachable in the source
      let input_batches := q.1
      let input_channels := q.2.1
      let input_w := q.2.2.1
      let input_h := q.2.2.2
      if input_batches = 0 ∨ input_channels = 0 then
        .error (.InvalidInputShape 0 s0)
      else
        let elem_type := MultiType.for_size (input_w * input_h) .F32
        match get_attribute_f32 "epsilon" (some 1e-5) node with
        | .error e => .error e
        | .ok epsilon =>
          match agreed_type (input_shapes.take 1) (output_shapes.take 1) with
          | .error e => .error e
          | .ok st =>
            .ok ({ scalar_type := st,
                   template := "endomorphism/batchnormalization.wgsl",
                   threads := (as_u32 (ceil (input_w * input_h) elem_type.elements),
                               as_u32 input_channels, as_u32 input_batches) },
                 [("elem_type", .tStr elem_type.wgsl_type_name),
                  ("elem_stride", .tNat elem_type.stride),
                  ("epsilon", .tFloat epsilon),
                  ("batch_size", .tNat (ceil (input_channels * input_w * input_h)
                                             elem_type.elements)),
                  ("channel_size", .tNat (ceil (input_w * input_h)
                                               elem_type.elements))])

/-- The activation branch (`Relu | Sigmoid | … | LeakyRelu`). -/
def compile_activation (node : Node) (input_shapes output_shapes : List Shape) :
    Except CompileError (NodeTemplate × Env) :=
  match get_attribute_f32 "alpha" (some 1.0) node with
  | .error e => .error e
  | .ok alpha =>
    match workgroup_size (ceil (lens_at output_shapes 0) 4)
        MAX_COMPUTE_WORKGROUPS_PER_DIMENSION MAX_WORKGROUP_SIZE_X with
    | .error e => .error e
    | .ok (x_threads, workgroup_size_x) =>
      match agreed_type input_shapes output_shapes with
      | .error e => .error e
      | .ok st =>
        .ok ({ scalar_type := st, template := "endomorphism/activation.wgsl",
               threads := (x_threads, 1, 1) },
             [("alpha", .tFloat alpha),
              ("workgroup_size_x", .tNat workgroup_size_x)])

/-- The `Concat` branch. -/
def compile_concat (input_shapes output_shapes : List Shape) :
    Except CompileError (NodeTemplate × Env) :=
  let input_cumulative_len := cum_sum 0 (input_shapes.map Shape.element_count)
  match agreed_type input_shapes output_shapes with
  | .error e => .error e
  | .ok st =>
    .ok ({ scalar_type := st, template := "matrix/concat.wgsl",
           threads := (as_u32 (ceil (lens_at output_shapes 0) 256), 1, 1) },
         [("cum_len", .tNatList input_cumulative_len)])

/-- The pooling/convolution branch
(`MaxPool | AveragePool | Conv | ConvRelu | ConvLeakyRelu | ConvMish |
GlobalAveragePool`).  The source's `assert!` statements (kernel shape has at
least two non-negative entries, rank-4 input) panic instead of returning an
error and are not modelled; the claims stay within assertion-satisfying
inputs. -/
def compile_pool_conv (op : String) (node : Node)
    (input_shapes output_shapes : List Shape) :
    Except CompileError (NodeTemplate × Env) :=
  let is_global_average_pool := op = "GlobalAveragePool"
  let global_env : Env :=
    if is_global_average_pool then [("op_type", .tStr "AveragePool")] else []
  match get_attribute_string "auto_pad" (some "NOTSET") node with
  | .error e => .error e
  | .ok auto_pad =>
    match get_attribute_ints "dilations" (some [1, 1]) node with
    | .error e => .error e
    | .ok dilations =>
      match (if is_global_average_pool then
               .ok [((shape_at input_shapes 0).dim 2 : Int),
                    ((shape_at input_shapes 0).dim 3 : Int)]
             else get_attribute_ints "kernel_shape" none node :
             Except CompileError (List Int)) with
      | .error e => .error e
      | .ok kernel_shape =>
        match get_attribute_ints "strides" (some [1, 1]) node with
        | .error e => .error e
        | .ok strides =>
          match get_attribute_ints "pads" (some [0, 0, 0, 0]) node with
          | .error e => .error e
          | .ok pads0 =>
            match (if auto_pad = "NOTSET" then .ok pads0
                   else if auto_pad = "SAME_UPPER" then
                     let slack_0 := -(strides.getD 0 0) +
                       ((kernel_shape.getD 0 0 - 1) * dilations.getD 0 0 + 1)
                     let slack_0_div_2 := Int.tdiv slack_0 2
                     let slack_rest_0 := Int.tmod slack_0 2
                     let slack_1 := -(strides.getD 1 0) +
                       ((kernel_shape.getD 1 0 - 1) * dilations.getD 1 0 + 1)
                     let slack_1_div_2 := Int.tdiv slack_1 2
                     let slack_rest_1 := Int.tmod slack_1 2
                     .ok [slack_0_div_2, slack_1_div_2,
                          slack_0_div_2 + slack_rest_0,
                          slack_1_div_2 + slack_rest_1]
                   else if auto_pad = "SAME_LOWER" then
                     let slack_0 := -(strides.getD 0 0) +
                       ((kernel_shape.getD 0 0 - 1) * dilations.getD 0 0 + 1)
                     let slack_0_div_2 := Int.tdiv slack_0 2
                     let slack_rest_0 := Int.tmod slack_0 2
                     let slack_1 := -(strides.getD 1 0) +
                       ((kernel_shape.getD 1 0 - 1) * dilations.getD 1 0 + 1)
                     let slack_1_div_2 := Int.tdiv slack_1 2
                     let slack_rest_1 := Int.tmod slack_1 2
                     .ok [slack_0_div_2 + slack_rest_0,
                          slack_1_div_2 + slack_rest_1,
                          slack_0_div_2, slack_1_div_2]
                   else
                     .error (.UnimplementedVariant ("auto_pad=" ++ auto_pad) op) :
                   Except CompileError (List Int)) with
            | .error e => .error e
            | .ok pads =>
              let input_shape := shape_at input_shapes 0
              let output_shape := shape_at output_shapes 0
              let pool_env : Env := global_env ++
                [("original_width", .tNat (input_shape.dim 3)),
                 ("width", .tNat (output_shape.dim 3)),
                 ("original_height", .tNat (input_shape.dim 2)),
                 ("channel", .tNat (input_shape.dim 1)),
                 ("stride", .tIntList strides),
                 ("kernel_shape", .tIntList kernel_shape),
                 ("kernel_len", .tInt (kernel_shape.getD 0 0 * kernel_shape.getD 1 0)),
                 ("kernel_channel_len",
                  .tNat ((kernel_shape.getD 0 0).toNat * (kernel_shape.getD 1 0).toNat *
                         input_shape.dim 1)),
                 ("pad", .tIntList pads),
                 ("dilation", .tIntList dilations)]
              if op = "MaxPool" ∨ op = "AveragePool" ∨ op = "GlobalAveragePool" then
                match agreed_type input_shapes (output_shapes.take 1) with
                | .error e => .error e
                | .ok st =>
                  .ok ({ scalar_type := st, template := "pool/aggregate.wgsl",
                         threads := (as_u32 (ceil (lens_at output_shapes 0) 1024), 1, 1) },
                       pool_env)
              else if op = "Conv" ∨ op = "ConvRelu" ∨ op = "ConvLeakyRelu" ∨
                  op = "ConvMish" then
                match get_attribute_f32 "alpha" (some 0.01) node with
                | .error e => .error e
                | .ok alpha =>
                  let conv_env := pool_env ++ [("alpha", .tFloat alpha)]
                  if strides = [1, 1] ∧ kernel_shape = [1, 1] ∧
                      (dilations = [1, 1] ∧ pads = [0, 0, 0, 0]) ∧
                      input_shape.dim 1 % 16 = 0 ∧ output_shape.dim 1 % 4 = 0 then
                    match agreed_type input_shapes output_shapes with
                    | .error e => .error e
                    | .ok st =>
                      .ok ({ scalar_type := st, template := "pool/conv_kernel_1.wgsl",
                             threads := (as_u32 (ceil (lens_at output_shapes 0) 1024), 1, 1) },
                           conv_env)
                  else if strides = [1, 1] ∧ kernel_shape = [3, 3] ∧
                      dilations = [1, 1] ∧ output_shape.dim 1 % 4 = 0 then
                    match agreed_type input_shapes output_shapes with
                    | .error e => .error e
                    | .ok st =>
                      .ok ({ scalar_type := st, template := "pool/conv_kernel_3.wgsl",
                             threads := (as_u32 (ceil (lens_at output_shapes 0) 1024), 1, 1) },
                           conv_env)
                  else
                    match agreed_type input_shapes output_shapes with
                    | .error e => .error e
                    | .ok st =>
                      .ok ({ scalar_type := st, template := "pool/conv.wgsl",
                             threads := (as_u32 (ceil (lens_at output_shapes 0) 256), 1, 1) },
                           conv_env)
              else .error (.InvalidOperation op)

/-- The `Gemm | MatMul` branch.  The source performs the
`transA`/`transB`/`broadcast` rejection twice (before and after inserting
`alpha`/`beta`); both occurrences are kept. -/
def compile_gemm (op : String) (node : Node)
    (input_shapes output_shapes : List Shape) :
    Except CompileError (NodeTemplate × Env) :=
  match get_attribute_f32 "alpha" (some 1.0) node with
  | .error e => .error e
  | .ok alpha =>
    match get_attribute_f32 "beta" (some 1.0) node with
    | .error e => .error e
    | .ok beta =>
      match (if op = "Gemm" then
               match get_attribute_i64 "transA" (some 0) node with
               | .error e => .error e
               | .ok transpose_a =>
                 match get_attribute_i64 "transB" (some 0) node with
                 | .error e => .error e
                 | .ok transpose_b =>
                   match get_attribute_i64 "broadcast" (some 0) node with
                   | .error e => .error e
                   | .ok broadcast =>
                     if transpose_a ≠ 0 ∨ transpose_b ≠ 0 ∨ broadcast ≠ 0 then
                       .error (.UnimplementedVariant
                         "Gemm with transA/transB/broadcast not equal to zero" op)
                     else .ok ()
             else .ok () : Except CompileError Unit) with
      | .error e => .error e
      | .ok _ =>
        let gemm_env : Env := [("alpha", .tFloat alpha), ("beta", .tFloat beta)]
        match (if op = "Gemm" then
                 match get_attribute_i64 "transA" (some 0) node with
                 | .error e => .error e
                 | .ok transpose_a =>
                   match get_attribute_i64 "transB" (some 0) node with
                   | .error e => .error e
                   | .ok transpose_b =>
                     match get_attribute_i64 "broadcast" (some 0) node with
                     | .error e => .error e
                     | .ok broadcast =>
                       if transpose_a ≠ 0 ∨ transpose_b ≠ 0 ∨ broadcast ≠ 0 then
                         .error (.UnimplementedVariant
                           "Gemm with transA/transB/broadcast not equal to zero" op)
                       else .ok ()
               else .ok () : Except CompileError Unit) with
        | .error e => .error e
        | .ok _ =>
          if (shape_at input_shapes 0).dim 0 = 1 then
            match agreed_type input_shapes output_shapes with
            | .error e => .error e
            | .ok st =>
              .ok ({ scalar_type := st, template := "matrix/gemm_1.wgsl",
                     threads := (as_u32 ((shape_at output_shapes 0).dim 1), 1, 1) },
                   gemm_env)
          else
            match agreed_type input_shapes output_shapes with
            | .error e => .error e
            | .ok st =>
              .ok ({ scalar_type := st, template := "matrix/gemm.wgsl",
                     threads := (as_u32 ((shape_at input_shapes 0).dim 0 *
                                         (shape_at input_shapes 1).dim 1 / 16), 1, 1) },
                   gemm_env)

/-- The `Resize` branch.  The two-decimal display formatting (`{:.2}`) of
the scale factors is not modelled; the computed `f32` scale values are bound
directly. -/
def compile_resize (node : Node) (input_shapes output_shapes : List Shape) :
    Except CompileError (NodeTemplate × Env) :=
  match get_attribute_string "coordinate_transformation_mode" (some "half_pixel") node with
  | .error e => .error e
  | .ok ctm =>
    let ctm_env : Env := [("coordinate_transformation_mode", .tStr ctm)]
    match (if ctm = "half_pixel" ∨ ctm = "pytorch_half_pixel" ∨
              ctm = "align_corners" ∨ ctm = "asymmetric" then .ok []
           else if ctm = "tf_crop_and_resize" then
             match get_attribute_ints "roi" none node with
             | .error e => .error e
             | .ok roi =>
               match get_attribute_f32 "extrapolation_value" (some 0.0) node with
               | .error e => .error e
               | .ok extrapolation_value =>
                 .ok [("roi", .tIntList roi),
                      ("extrapolation_value", .tFloat extrapolation_value)]
           else
             .error (.UnimplementedVariant
               ("coordinate_transformation_mode=" ++ ctm) "Resize") :
           Except CompileError Env) with
    | .error e => .error e
    | .ok roi_env =>
      match get_attribute_floats "scales" (some []) node with
      | .error e => .error e
      | .ok scales =>
        match (if scales.isEmpty then
                 match get_attribute_ints "sizes" (some []) node with
                 | .error e => .error e
                 | .ok sizes =>
                   .ok (sizes.enum.map (fun p =>
                     Float.ofInt p.2 / Float.ofNat ((shape_at input_shapes 0).dim p.1)))
               else .ok scales : Except CompileError (List Float)) with
        | .error e => .error e
        | .ok scale_prints =>
          match get_attribute_string "mode" (some "nearest") node with
          | .error e => .error e
          | .ok mode =>
            let mode_env : Env :=
              [("mode", .tStr mode), ("scales", .tFloatList scale_prints)]
            match (if mode = "nearest" then
                     match get_attribute_string "nearest_mode"
                         (some "round_prefer_floor") node with
                     | .error e => .error e
                     | .ok nearest_mode =>
                       if nearest_mode = "floor" then .ok ()
                       else .error (.UnimplementedVariant
                         ("nearest_mode=" ++ nearest_mode) "Resize")
                   else if mode = "cubic" then
                     match get_attribute_f32 "cubic_coeff_a" (some (-0.75)) node with
                     | .error e => .error e
                     | .ok _ =>
                       .error (.UnimplementedVariant ("mode=" ++ mode) "Resize")
                   else
                     .error (.UnimplementedVariant ("mode=" ++ mode) "Resize") :
                   Except CompileError Unit) with
            | .error e => .error e
            | .ok _ =>
              match get_attribute_i64 "exclude_outside" (some 0) node with
              | .error e => .error e
              | .ok exclude_outside =>
                match agreed_type (input_shapes.take 1) (output_shapes.take 1) with
                | .error e => .error e
                | .ok st =>
                  .ok ({ scalar_type := st, template := "matrix/resize.wgsl",
                         threads := (as_u32 (ceil (lens_at output_shapes 0) 256), 1, 1) },
                       ctm_env ++ roi_env ++ mode_env ++
                       [("exclude_outside", .tInt exclude_outside)])

/-- The `Split` branch: a negative `axis` is normalized by adding the
*element count* of input 0 (not the rank). -/
def compile_split (node : Node) (input_shapes output_shapes : List Shape) :
    Except CompileError (NodeTemplate × Env) :=
  match get_attribute_i64 "axis" (some 0) node with
  | .error e => .error e
  | .ok a =>
    let axis : Int :=
      if a < 0 then a + ((shape_at input_shapes 0).element_count : Int) else a
    let split_chunk :=
      (shape_at input_shapes 0).dim (i64_as_usize axis) / output_shapes.length
    let default_split : List Int :=
      (List.range output_shapes.length).map (fun x => (((x + 1) * split_chunk : Nat) : Int))
    match get_attribute_ints "split" (some default_split) node with
    | .error e => .error e
    | .ok split =>
      match agreed_type (input_shapes.take 1) (output_shapes.take 1) with
      | .error e => .error e
      | .ok st =>
        .ok ({ scalar_type := st, template := "matrix/split.wgsl",
               threads := (as_u32 (ceil (lens_at output_shapes 0) 256), 1, 1) },
             [("axis", .tInt axis), ("split", .tIntList split)])

/-- The `Transpose` branch (the default `perm` is the empty descending
range `input_length..0`). -/
def compile_transpose (node : Node) (input_shapes output_shapes : List Shape) :
    Except CompileError (NodeTemplate × Env) :=
  let dflt : List Int := int_range ((lens_at input_shapes 0 : Nat) : Int) 0
  match get_attribute_ints "perm" (some dflt) node with
  | .error e => .error e
  | .ok perms =>
    let permuted_shapes : List Nat :=
      perms.map (fun p => (shape_at output_shapes 0).dim (i64_as_usize p))
    let chunks := chunks_inline permuted_shapes
    match agreed_type input_shapes output_shapes with
    | .error e => .error e
    | .ok st =>
      .ok ({ scalar_type := st, template := "matrix/transpose.wgsl",
             threads := (as_u32 (ceil (lens_at output_shapes 0) 256), 1, 1) },
           [("permuted_chunks", .tNatList chunks)])

/-- Branch selection of `compile` (`src/wonnx/src/compiler.rs` lines
253-962): the big dispatch over the op-type string. -/
def compile_select (node : Node) (input_shapes output_shapes : List Shape)
    (opset_version : Int) : Except CompileError (NodeTemplate × Env) :=
  match node.op_type with
  | "Reshape" | "Dropout" | "Identity" | "Flatten" | "Squeeze" | "Unsqueeze" =>
    .error (.InvalidOperation node.op_type)
  | "Abs" | "Acos" | "Asin" | "Atan" | "Ceil" | "Cos" | "Cosh" | "Exp" | "Floor"
  | "Log" | "Round" | "Sign" | "Sin" | "Sinh" | "Sqrt" | "Tan" | "Tanh"
  | "Reciprocal" =>
    compile_map input_shapes output_shapes
  | "ReduceMean" | "ReduceSum" | "ReduceMax" | "ReduceMin" | "ReduceProd"
  | "ReduceL1" | "ReduceL2" | "ReduceLogSum" | "ReduceLogSumExp"
  | "ReduceSumSquare" =>
    compile_reduce node input_shapes output_shapes
  | "OneHot" => compile_onehot node input_shapes output_shapes
  | "Gather" => compile_gather node input_shapes output_shapes
  | "Cast" => compile_cast node input_shapes output_shapes
  | "Softmax" => compile_softmax node input_shapes output_shapes opset_version
  | "Add" | "And" | "Div" | "Equal" | "Greater" | "GreaterOrEqual" | "Less"
  | "LessOrEqual" | "Mod" | "Mul" | "Or" | "Sub" =>
    compile_arithmetic node input_shapes output_shapes
  | "BatchNormalization" =>
    compile_batchnorm node input_shapes output_shapes opset_version
  | "Relu" | "Sigmoid" | "Softsign" | "Softplus" | "Clip" | "Celu" | "Elu"
  | "LeakyRelu" =>
    compile_activation node input_shapes output_shapes
  | "Concat" => compile_concat input_shapes output_shapes
  | "MaxPool" | "AveragePool" | "Conv" | "ConvRelu" | "ConvLeakyRelu"
  | "ConvMish" | "GlobalAveragePool" =>
    compile_pool_conv node.op_type node input_shapes output_shapes
  | "Gemm" | "MatMul" => compile_gemm node.op_type node input_shapes output_shapes
  | "Resize" => compile_resize node input_shapes output_shapes
  | "Sum" => .error (.UnimplementedOp "Sum")
  | "Split" => compile_split node input_shapes output_shapes
  | "Transpose" => compile_transpose node input_shapes output_shapes
  | op => .error (.UnimplementedOp op)

/-- The common environment bound before branch dispatch. -/
def base_env (node : Node) (input_shapes output_shapes : List Shape)
    (opset_version : Int) : Env :=
  [("i_lens", .tNatList (input_shapes.map Shape.element_count)),
   ("o_lens", .tNatList (output_shapes.map Shape.element_count)),
   ("i_shape", .tNatListList (input_shapes.map Shape.dims)),
   ("o_shape", .tNatListList (output_shapes.map Shape.dims)),
   ("i_chunks", .tNatListList (input_shapes.map Shape.chunks)),
   ("o_chunks", .tNatListList (output_shapes.map Shape.chunks)),
   ("op_type", .tStr node.op_type),
   ("opset_version", .tInt opset_version)]

/-- The scalar-type environment bound after branch selection. -/
def scalar_env (st : ScalarType) : Env :=
  [("scalar_type", .tStr st.wgsl_type_name),
   ("scalar_stride", .tNat st.stride),
   ("vec4_stride", .tNat (MultiType.stride (.Vec st 4))),
   ("mat4x4_stride", .tNat (MultiType.stride (.Mat st 4 4))),
   ("mat3x3_stride", .tNat 48)]

/-- `compile` (`src/wonnx/src/compiler.rs`): branch selection, the
per-dimension workgroup-count limit checks, and assembly of the compiled
node. -/
def compile (node : Node) (input_shapes output_shapes : List Shape)
    (opset_version : Int) : Except CompileError CompiledNode :=
  match compile_select node input_shapes output_shapes opset_version with
  | .error e => .error e
  | .ok (nt, branch_env) =>
    if nt.threads.1 > MAX_COMPUTE_WORKGROUPS_PER_DIMENSION then
      .error (.ComputeLimitExceeded "X threads" nt.threads.1
        MAX_COMPUTE_WORKGROUPS_PER_DIMENSION)
    else if nt.threads.2.1 > MAX_COMPUTE_WORKGROUPS_PER_DIMENSION then
      .error (.ComputeLimitExceeded "Y threads" nt.threads.2.1
        MAX_COMPUTE_WORKGROUPS_PER_DIMENSION)
    else if nt.threads.2.2 > MAX_COMPUTE_WORKGROUPS_PER_DIMENSION then
      .error (.ComputeLimitExceeded "Z threads" nt.threads.2.2
        MAX_COMPUTE_WORKGROUPS_PER_DIMENSION)
    else
      .ok { template := nt.template, threads := nt.threads,
            env := base_env node input_shapes output_shapes opset_version ++
                   branch_env ++ scalar_env nt.scalar_type }

/-- Result of the legacy compiler (`src/src/compiler.rs`): template path,
thread extent and bound environment (standing in for the rendered shader). -/
structure LegacyCompiled where
  template : String
  threads : Nat × Nat × Nat
  env : Env

/-- Legacy `get_attribute::<i64>`: panics (modelled as an error string) when
the attribute is absent and no default is given, or on a tag mismatch. -/
def legacy_get_i64 (name : String) (dflt : Option Int) (node : Node) :
    Except String Int :=
  match find_attr node name with
  | some (.aInt v) => .ok v
  | some _ => .error ("panic: attribute " ++ name ++ " has the wrong type")
  | none =>
    match dflt with
    | some d => .ok d
    | none => .error ("panic: attribute " ++ name ++ " not found")

/-- Legacy `get_attribute::<f32>` (see `legacy_get_i64`). -/
def legacy_get_f32 (name : String) (dflt : Option Float) (node : Node) :
    Except String Float :=
  match find_attr node name with
  | some (.aFloat v) => .ok v
  | some _ => .error ("panic: attribute " ++ name ++ " has the wrong type")
  | none =>
    match dflt with
    | some d => .ok d
    | none => .error ("panic: attribute " ++ name ++ " not found")

/-- Legacy `get_attribute::<String>` (see `legacy_get_i64`). -/
def legacy_get_string (name : String) (dflt : Option String) (node : Node) :
    Except String String :=
  match find_attr node name with
  | some (.aStr v) => .ok v
  | some _ => .error ("panic: attribute " ++ name ++ " has the wrong type")
  | none =>
    match dflt with
    | some d => .ok d
    | none => .error ("panic: attribute " ++ name ++ " not found")

/-- Legacy `get_attribute::<Vec<i64>>` (see `legacy_get_i64`). -/
def legacy_get_ints (name : String) (dflt : Option (List Int)) (node : Node) :
    Except String (List Int) :=
  match find_attr node name with
  | some (.aInts v) => .ok v
  | some _ => .error ("panic: attribute " ++ name ++ " has the wrong type")
  | none =>
    match dflt with
    | some d => .ok d
    | none => .error ("panic: attribute " ++ name ++ " not found")

/-- Legacy infix-operator rebinding (`src/src/compiler.rs` lines 109-126);
the fall-through arm is `unimplemented!()`. -/
def legacy_binary_op_string (op : String) : Except String String :=
  match op with
  | "Add" => .ok "+"
  | "And" => .ok "&"
  | "Div" => .ok "/"
  | "Equal" => .ok "=="
  | "Greater" => .ok ">"
  | "GreaterOrEqual" => .ok ">="
  | "Less" => .ok "<"
  | "LessOrEqual" => .ok "<="
  | "Mod" => .ok "%"
  | "Mul" => .ok "*"
  | "Or" => .ok "|"
  | "Sub" => .ok "-"
  | _ => .error "panic: unimplemented"

/-- The legacy compiler `compile` (`src/src/compiler.rs`).  It receives the
already-resolved dimension vectors (`i64`) of the node's inputs and outputs
(the name-to-dims hash-map lookup and the WGSL variable-name escaping are
plumbing over the node's tensor names and are not modelled).  Panics
(`panic!`, `todo!`, `unimplemented!`, out-of-range indexing aside) are
modelled as `Except.error` strings. -/
def legacy_compile (node : Node) (input_dims output_dims : List (List Int)) :
    Except String LegacyCompiled :=
  let input_lengths := input_dims.map List.prod
  let output_lengths := output_dims.map List.prod
  let input_chunks := input_dims.map chunks_inline_int
  let output_chunks := output_dims.map chunks_inline_int
  let base : Env :=
    [("i_lens", .tIntList input_lengths),
     ("o_lens", .tIntList output_lengths),
     ("i_dims", .tIntListList input_dims),
     ("o_dims", .tIntListList output_dims),
     ("i_chunks", .tIntListList input_chunks),
     ("o_chunks", .tIntListList output_chunks),
     ("op_type", .tStr node.op_type)]
  let o0 := output_lengths.getD 0 0
  match node.op_type with
  | "Abs" | "Acos" | "Asin" | "Atan" | "Ceil" | "Cos" | "Cosh" | "Exp" | "Floor"
  | "Log" | "Round" | "Sign" | "Sin" | "Sinh" | "Sqrt" | "Tan" | "Tanh" =>
    .ok ⟨"endomorphism/map.wgsl", (i64_as_u32 (ceil_i64 o0 4), 1, 1), base⟩
  | "Reshape" | "Dropout" | "Flatten" | "Squeeze" | "Softmax" =>
    .ok ⟨"endomorphism/copy.wgsl", (i64_as_u32 (ceil_i64 o0 16), 1, 1), base⟩
  | "Add" | "And" | "Div" | "Equal" | "Greater" | "GreaterOrEqual" | "Less"
  | "LessOrEqual" | "Mod" | "Mul" | "Or" | "Sub" =>
    match legacy_binary_op_string node.op_type with
    | .error e => .error e
    | .ok op_string =>
      .ok ⟨"endomorphism/arithmetic.wgsl", (i64_as_u32 (ceil_i64 o0 4), 1, 1),
           base ++ [("op_type", .tStr op_string)]⟩
  | "BatchNormalization" =>
    match legacy_get_f32 "epsilon" (some 1.0) node with
    | .error e => .error e
    | .ok _ => .error "panic: todo"
  | "Relu" | "Sigmoid" | "Softsign" | "Softplus" | "Clip" | "Celu" | "Elu" =>
    match legacy_get_f32 "alpha" (some 1.0) node with
    | .error e => .error e
    | .ok alpha =>
      .ok ⟨"endomorphism/activation.wgsl", (i64_as_u32 (ceil_i64 o0 4), 1, 1),
           base ++ [("alpha", .tFloat alpha)]⟩
  | "Concat" =>
    .ok ⟨"matrix/concat.wgsl", (i64_as_u32 (ceil_i64 o0 256), 1, 1), base⟩
  | "MaxPool" | "AveragePool" | "Conv" | "ConvRelu" | "ConvLeakyRelu"
  | "ConvMish" =>
    match legacy_get_string "auto_pad" (some "NOTSET") node with
    | .error e => .error e
    | .ok auto_pad =>
      match legacy_get_ints "dilations" (some [1, 1]) node with
      | .error e => .error e
      | .ok dilations =>
        match legacy_get_ints "kernel_shape" none node with
        | .error e => .error e
        | .ok kernel_shape =>
          match legacy_get_ints "strides" (some [1, 1]) node with
          | .error e => .error e
          | .ok strides =>
            match legacy_get_ints "pads" (some [0, 0, 0, 0]) node with
            | .error e => .error e
            | .ok pads0 =>
              match (if auto_pad = "NOTSET" then .ok pads0
                     else if auto_pad = "SAME_UPPER" then
                       let slack_0 := -(strides.getD 0 0) +
                         ((kernel_shape.getD 0 0 - 1) * dilations.getD 0 0 + 1)
                       let slack_0_div_2 := Int.tdiv slack_0 2
                       let slack_rest_0 := Int.tmod slack_0 2
                       let slack_1 := -(strides.getD 1 0) +
                         ((kernel_shape.getD 1 0 - 1) * dilations.getD 1 0 + 1)
                       let slack_1_div_2 := Int.tdiv slack_1 2
                       let slack_rest_1 := Int.tmod slack_1 2
                       .ok [slack_0_div_2, slack_1_div_2,
                            slack_0_div_2 + slack_rest_0,
                            slack_1_div_2 + slack_rest_1]
                     else if auto_pad = "SAME_LOWER" then
                       let slack_0 := -(strides.getD 0 0) +
                         ((kernel_shape.getD 0 0 - 1) * dilations.getD 0 0 + 1)
                       let slack_0_div_2 := Int.tdiv slack_0 2
                       let slack_rest_0 := Int.tmod slack_0 2
                       let slack_1 := -(strides.getD 1 0) +
                         ((kernel_shape.getD 1 0 - 1) * dilations.getD 1 0 + 1)
                       let slack_1_div_2 := Int.tdiv slack_1 2
                       let slack_rest_1 := Int.tmod slack_1 2
                       .ok [slack_0_div_2 + slack_rest_0,
                            slack_1_div_2 + slack_rest_1,
                            slack_0_div_2, slack_1_div_2]
                     else .error "panic: unimplemented" :
                     Except String (List Int)) with
              | .error e => .error e
              | .ok pads =>
                let in_dims := input_dims.getD 0 []
                let out_dims := output_dims.getD 0 []
                let pool_env : Env := base ++
                  [("original_width", .tInt (in_dims.getD 3 0)),
                   ("width", .tInt (out_dims.getD 3 0)),
                   ("original_height", .tInt (in_dims.getD 2 0)),
                   ("channel", .tInt (in_dims.getD 1 0)),
                   ("stride", .tIntList strides),
                   ("kernel_shape", .tIntList kernel_shape),
                   ("kernel_len", .tInt (kernel_shape.getD 0 0 * kernel_shape.getD 1 0)),
                   ("kernel_channel_len",
                    .tInt (kernel_shape.getD 0 0 * kernel_shape.getD 1 0 *
                           in_dims.getD 1 0)),
                   ("pad", .tIntList pads),
                   ("dilation", .tIntList dilations)]
                if node.op_type = "MaxPool" ∨ node.op_type = "AveragePool" then
                  .ok ⟨"pool/aggregate.wgsl",
                       (i64_as_u32 (ceil_i64 o0 1024), 1, 1), pool_env⟩
                else
                  match legacy_get_f32 "alpha" (some 0.01) node with
                  | .error e => .error e
                  | .ok alpha =>
                    let conv_env := pool_env ++ [("alpha", .tFloat alpha)]
                    if strides = [1, 1] ∧ kernel_shape = [1, 1] ∧
                        (dilations = [1, 1] ∧ pads = [0, 0, 0, 0]) ∧
                        Int.tmod (in_dims.getD 1 0) 16 = 0 ∧
                        Int.tmod (out_dims.getD 1 0) 4 = 0 then
                      .ok ⟨"pool/conv_kernel_1.wgsl",
                           (i64_as_u32 (ceil_i64 o0 1024), 1, 1), conv_env⟩
                    else if strides = [1, 1] ∧ kernel_shape = [3, 3] ∧
                        dilations = [1, 1] ∧
                        Int.tmod (out_dims.getD 1 0) 4 = 0 then
                      .ok ⟨"pool/conv_kernel_3.wgsl",
                           (i64_as_u32 (ceil_i64 o0 1024), 1, 1), conv_env⟩
                    else
                      .ok ⟨"pool/conv.wgsl",
                           (i64_as_u32 (ceil_i64 o0 256), 1, 1), conv_env⟩
  | "Gemm" | "MatMul" =>
    match legacy_get_f32 "alpha" (some 1.0) node with
    | .error e => .error e
    | .ok alpha =>
      match legacy_get_f32 "beta" (some 1.0) node with
      | .error e => .error e
      | .ok beta =>
        let gemm_env := base ++ [("alpha", .tFloat alpha), ("beta", .tFloat beta)]
        if (input_dims.getD 0 []).getD 0 0 = 1 then
          .ok ⟨"matrix/gemm_1.wgsl",
               (i64_as_u32 ((output_dims.getD 0 []).getD 1 0), 1, 1), gemm_env⟩
        else
          .ok ⟨"matrix/gemm.wgsl",
               (i64_as_u32 (Int.tdiv ((input_dims.getD 0 []).getD 0 0 *
                                      (input_dims.getD 1 []).getD 1 0) 16), 1, 1),
               gemm_env⟩
  | "Sum" => .error "panic: unimplemented"
  | "Transpose" =>
    let dflt : List Int := int_range (input_lengths.getD 0 0) 0
    match legacy_get_ints "perm" (some dflt) node with
    | .error e => .error e
    | .ok perms =>
      let permuted_dims : List Int :=
        perms.map (fun p => (output_dims.getD 0 []).getD (i64_as_usize p) 0)
      let chunks := chunks_inline_int permuted_dims
      .ok ⟨"matrix/transpose.wgsl", (i64_as_u32 (ceil_i64 o0 256), 1, 1),
           base ++ [("permuted_chunks", .tIntList chunks)]⟩
  | op => .error ("panic: op " ++ op ++ " is not implemented")

/-- `resize` from `src/wonnx/src/resource.rs`: pad a buffer shorter than 4
elements (but not empty) up to length `size + 4 - size % 4` with zeroes
(`T::zeroed()` is modelled by an explicit zero element). -/
def resize {α : Type} (zero : α) (array : List α) : List α :=
  let size := array.length
  if size < 4 ∧ size ≠ 0 then
    array ++ List.replicate ((size + 4 - size % 4) - size) zero
  else array

/-- Projection: the thread extent of a successful compilation. -/
def ok_threads (r : Except CompileError CompiledNode) : Option (Nat × Nat × Nat) :=
  match r with
  | .ok c => some c.threads
  | .error _ => none

/-- Projection: the template of a successful compilation. -/
def ok_template (r : Except CompileError CompiledNode) : Option String :=
  match r with
  | .ok c => some c.template
  | .error _ => none

/-- Projection: an environment binding of a successful compilation. -/
def ok_binding (r : Except CompileError CompiledNode) (k : String) :
    Option TemplateValue :=
  match r with
  | .ok c => context_get c.env k
  | .error _ => none

/-- Whether a compilation succeeded. -/
def compile_ok (r : Except CompileError CompiledNode) : Bool :=
  match r with
  | .ok _ => true
  | .error _ => false

/-- Projection: the thread extent of a successful legacy compilation. -/
def legacy_ok_threads (r : Except String LegacyCompiled) : Option (Nat × Nat × Nat) :=
  match r with
  | .ok c => some c.threads
  | .error _ => none

/-- Projection: the template of a successful legacy compilation. -/
def legacy_ok_template (r : Except String LegacyCompiled) : Option String :=
  match r with
  | .ok c => some c.template
  | .error _ => none

/-- Projection: an environment binding of a successful legacy compilation. -/
def legacy_ok_binding (r : Except String LegacyCompiled) (k : String) :
    Option TemplateValue :=
  match r with
  | .ok c => context_get c.env k
  | .error _ => none

lemma ceil_le_iff {b : Nat} (hb : 0 < b) (a c : Nat) : ceil a b ≤ c ↔ a ≤ b * c := by
  unfold ceil
  rw [Nat.div_le_iff_le_mul_add_pred hb]
  generalize b * c = K
  omega

lemma le_mul_ceil {b : Nat} (hb : 0 < b) (a : Nat) : a ≤ b * ceil a b :=
  (ceil_le_iff hb a (ceil a b)).mp le_rfl

lemma ceil_pos {a b : Nat} (ha : 0 < a) (hb : 0 < b) : 0 < ceil a b := by
  rcases Nat.eq_zero_or_pos (ceil a b) with h | h
  · have := (ceil_le_iff hb a 0).mp (by omega)
    omega
  · exact h

lemma as_u32_small {x : Nat} (h : x < 4294967296) : as_u32 x = x :=
  Nat.mod_eq_of_lt h

/-- C2: for `0 < n ≤ max_threads · max_group` (with the `u32` bounds imposed
by the source's types), `workgroup_size` succeeds; when `n ≤ max_threads` it
returns `(n, 1)`, otherwise `group_size = ⌈n / max_threads⌉` and
`threads = ⌈n / group_size⌉`; in both cases `threads · group_size ≥ n`,
`threads ≤ max_threads` and `group_size ≤ max_group`. -/
theorem C2_workgroup_size_solver (n mt mg : Nat) (h0 : 0 < n) (hle : n ≤ mt * mg)
    (hmt : mt < 4294967296) (hmg : mg < 4294967296) :
    workgroup_size n mt mg =
      .ok (if n ≤ mt then n else ceil n (ceil n mt),
           if n ≤ mt then 1 else ceil n mt) ∧
    n ≤ (if n ≤ mt then n else ceil n (ceil n mt)) *
        (if n ≤ mt then 1 else ceil n mt) ∧
    (if n ≤ mt then n else ceil n (ceil n mt)) ≤ mt ∧
    (if n ≤ mt then 1 else ceil n mt) ≤ mg := by
  have hmt0 : 0 < mt := by
    rcases Nat.eq_zero_or_pos mt with h | h
    · subst h; simp only [Nat.zero_mul] at hle; omega
    · exact h
  have hmg0 : 0 < mg := by
    rcases Nat.eq_zero_or_pos mg with h | h
    · subst h; simp only [Nat.mul_zero] at hle; omega
    · exact h
  by_cases hcase : n ≤ mt
  · rw [if_pos hcase, if_pos hcase]
    refine ⟨?_, by omega, hcase, hmg0⟩
    simp only [workgroup_size]
    rw [if_neg (by omega), as_u32_small (by omega)]
  · rw [if_neg hcase, if_neg hcase]
    have hg_le : ceil n mt ≤ mg := (ceil_le_iff hmt0 n mg).mpr hle
    have hg_pos : 0 < ceil n mt := ceil_pos h0 hmt0
    have hng : n ≤ ceil n mt * mt := by
      have h := le_mul_ceil hmt0 n
      rwa [Nat.mul_comm] at h
    have ht_le : ceil n (ceil n mt) ≤ mt := (ceil_le_iff hg_pos n mt).mpr hng
    have hnt : n ≤ ceil n (ceil n mt) * ceil n mt := by
      have h := le_mul_ceil hg_pos n
      rwa [Nat.mul_comm] at h
    refine ⟨?_, hnt, ht_le, hg_le⟩
    simp only [workgroup_size]
    rw [if_pos (by omega), as_u32_small (show ceil n mt < 4294967296 by omega),
        as_u32_small (show ceil n (ceil n mt) < 4294967296 by omega),
        if_neg (by omega), if_neg (by omega)]

/-- Closed witness for C2 at `n = 100000`, `max_threads = 65535`,
`max_group = 256`. -/
theorem C2_workgroup_size_solver_witness :
    0 < 100000 ∧ 100000 ≤ 65535 * 256 ∧
    workgroup_size 100000 65535 256 = .ok (50000, 2) := by
  refine ⟨by norm_num, by norm_num, ?_⟩
  exact (C2_workgroup_size_solver 100000 65535 256 (by norm_num) (by norm_num)
    (by norm_num) (by norm_num)).1

/-- C10: `resize` pads an array of length 1, 2 or 3 with zeroes up to length
exactly 4, and returns arrays of length 0 or of length at least 4 (even when
not a multiple of 4) unchanged. -/
theorem C10_resize (z : Nat) (l : List Nat) :
    (1 ≤ l.length → l.length ≤ 3 →
      resize z l = l ++ List.replicate (4 - l.length) z ∧
      (resize z l).length = 4) ∧
    (l.length = 0 ∨ 4 ≤ l.length → resize z l = l) := by
  constructor
  · intro h1 h2
    have hm : l.length % 4 = l.length := Nat.mod_eq_of_lt (by omega)
    have hcond : l.length < 4 ∧ l.length ≠ 0 := ⟨by omega, by omega⟩
    have heq : resize z l = l ++ List.replicate (4 - l.length) z := by
      simp only [resize]
      rw [if_pos hcond]
      congr 2
      omega
    refine ⟨heq, ?_⟩
    rw [heq]
    simp only [List.length_append, List.length_replicate]
    omega
  · intro h
    simp only [resize]
    rw [if_neg (by omega)]

/-- Closed witness for C10 at input `[1, 2]` (padded to length 4) and at
input `[1, 2, 3, 4, 5]` (length 5, not a multiple of 4, unchanged). -/
theorem C10_resize_witness :
    resize 0 [1, 2] = [1, 2, 0, 0] ∧ resize 0 [1, 2, 3, 4, 5] = [1, 2, 3, 4, 5] := by
  constructor
  · have h := (C10_resize 0 [1, 2]).1 (by norm_num) (by norm_num)
    simpa using h.1
  · exact (C10_resize 0 [1, 2, 3, 4, 5]).2 (by norm_num)

lemma check_shapes_some (d : ScalarType) (l : List Shape) :
    check_shapes (some d) l =
      match l.find? (fun s => !decide (s.data_type = d)) with
      | none => .ok (some d)
      | some s => .error (.TypesDisagree d s.data_type) := by
  induction l with
  | nil => rfl
  | cons s rest ih =>
    by_cases h : s.data_type = d
    · simp [check_shapes, List.find?, h, ih]
    · have h' : ¬(d = s.data_type) := fun hc => h hc.symm
      simp [check_shapes, List.find?, h, h']

lemma check_shapes_append (dt : Option ScalarType) (a b : List Shape) :
    check_shapes dt (a ++ b) =
      match check_shapes dt a with
      | .error e => .error e
      | .ok d => check_shapes d b := by
  induction a generalizing dt with
  | nil => simp [check_shapes]
  | cons s rest ih =>
    cases dt with
    | none => simp only [List.cons_append, check_shapes]; exact ih _
    | some d =>
      simp only [List.cons_append, check_shapes]
      by_cases h : d = s.data_type
      · rw [if_pos h, if_pos h]
        exact ih _
      · rw [if_neg h, if_neg h]

lemma agreed_type_eq (is os : List Shape) :
    agreed_type is os =
      match check_shapes none (is ++ os) with
      | .error e => .error e
      | .ok (some d) => .ok d
      | .ok none => .error .TypeUnderspecified := by
  unfold agreed_type
  rw [check_shapes_append]
  cases h : check_shapes none is with
  | error e => rfl
  | ok dt => rfl

lemma agreed_type_none_case (is os : List Shape) (s : Shape) (rest : List Shape)
    (hl : is ++ os = s :: rest)
    (hf : rest.find? (fun r => !decide (r.data_type = s.data_type)) = none) :
    agreed_type is os = .ok s.data_type := by
  rw [agreed_type_eq, hl,
      show check_shapes none (s :: rest) = check_shapes (some s.data_type) rest from rfl,
      check_shapes_some, hf]

lemma agreed_type_some_case (is os : List Shape) (s : Shape) (rest : List Shape)
    (r : Shape) (hl : is ++ os = s :: rest)
    (hf : rest.find? (fun x => !decide (x.data_type = s.data_type)) = some r) :
    agreed_type is os = .error (.TypesDisagree s.data_type r.data_type) := by
  rw [agreed_type_eq, hl,
      show check_shapes none (s :: rest) = check_shapes (some s.data_type) rest from rfl,
      check_shapes_some, hf]

/-- C3: `agreed_type` returns `Ok t` exactly when the union of input and
output shapes is non-empty and each has data type `t`; it returns
`TypeUnderspecified` exactly when both lists are empty; and a
`TypesDisagree(a, b)` error has `a` the first type seen (the head of the
concatenation, inputs first) and `b` the type of the first disagreeing
shape. -/
theorem C3_agreed_type (input_shapes output_shapes : List Shape) :
    (∀ t, agreed_type input_shapes output_shapes = .ok t ↔
      (input_shapes ++ output_shapes ≠ [] ∧
       ∀ s ∈ input_shapes ++ output_shapes, s.data_type = t)) ∧
    (agreed_type input_shapes output_shapes = .error .TypeUnderspecified ↔
      (input_shapes = [] ∧ output_shapes = [])) ∧
    (∀ a b, agreed_type input_shapes output_shapes = .error (.TypesDisagree a b) →
      ((input_shapes ++ output_shapes).head?.map Shape.data_type = some a ∧
       ((input_shapes ++ output_shapes).find?
          (fun s => !decide (s.data_type = a))).map Shape.data_type = some b)) := by
  cases hl : input_shapes ++ output_shapes with
  | nil =>
    have h1 : input_shapes = [] ∧ output_shapes = [] := List.append_eq_nil.mp hl
    have hag : agreed_type input_shapes output_shapes = .error .TypeUnderspecified := by
      obtain ⟨ha, hb⟩ := h1
      subst ha
      subst hb
      rfl
    refine ⟨fun t => ?_, ⟨fun _ => h1, fun _ => hag⟩, fun a b h => ?_⟩
    · rw [hag]
      simp
    · rw [hag] at h
      simp at h
  | cons s rest =>
    have hne : ¬(input_shapes = [] ∧ output_shapes = []) := by
      rintro ⟨h1, h2⟩
      rw [h1, h2] at hl
      simp at hl
    cases hf : rest.find? (fun r => !decide (r.data_type = s.data_type)) with
    | none =>
      have hag := agreed_type_none_case input_shapes output_shapes s rest hl hf
      have hall : ∀ r ∈ rest, r.data_type = s.data_type := by
        intro r hr
        have := List.find?_eq_none.mp hf r hr
        simpa using this
      refine ⟨fun t => ?_, ?_, fun a b h => ?_⟩
      · rw [hag]
        constructor
        · intro h
          have ht : s.data_type = t := by injection h
          refine ⟨by simp, ?_⟩
          intro r hr
          rcases List.mem_cons.mp hr with rfl | hr
          · exact ht
          · rw [hall r hr]; exact ht
        · rintro ⟨-, h⟩
          rw [h s (List.mem_cons_self s rest)]
      · rw [hag]
        exact ⟨fun h => by simp at h, fun h => absurd h hne⟩
      · rw [hag] at h
        simp at h
    | some r =>
      have hag := agreed_type_some_case input_shapes output_shapes s rest r hl hf
      have hrmem : r ∈ rest := List.mem_of_find?_eq_some hf
      have hrne : r.data_type ≠ s.data_type := by
        have := List.find?_some hf
        simpa using this
      refine ⟨fun t => ?_, ?_, fun a b h => ?_⟩
      · rw [hag]
        constructor
        · intro h; simp at h
        · rintro ⟨-, h⟩
          have h1 := h s (List.mem_cons_self s rest)
          have h2 := h r (List.mem_cons_of_mem s hrmem)
          exact absurd (h2.trans h1.symm) hrne
      · rw [hag]
        constructor
        · intro h; simp at h
        · intro h; exact absurd h hne
      · rw [hag] at h
        injection h with h1
        injection h1 with h2 h3
        subst h2
        subst h3
        constructor
        · simp
        · simp [List.find?, hf]

/-- Closed witness for C3: a two-element union where the output disagrees
with the input; the theorem pinpoints the error as
`TypesDisagree(f32, i32)` with `f32` the head type and `i32` the first
mismatch. -/
theorem C3_agreed_type_witness :
    agreed_type [Shape.mk [1] .F32] [Shape.mk [1] .I32] =
      .error (.TypesDisagree .F32 .I32) ∧
    ([Shape.mk [1] .F32] ++ [Shape.mk [1] .I32]).head?.map Shape.data_type =
      some .F32 := by
  have h := (C3_agreed_type [Shape.mk [1] .F32] [Shape.mk [1] .I32]).2.2 .F32 .I32
    (by rfl)
  exact ⟨by rfl, h.1⟩

lemma compile_error_of_select {node : Node} {is os : List Shape} {v : Int}
    {e : CompileError} (h : compile_select node is os v = .error e) :
    compile node is os v = .error e := by
  unfold compile
  rw [h]

lemma compile_ok_inv {node : Node} {is os : List Shape} {v : Int}
    {c : CompiledNode} (h : compile node is os v = .ok c) :
    ∃ nt benv, compile_select node is os v = .ok (nt, benv) ∧
      c.template = nt.template ∧ c.threads = nt.threads ∧
      c.env = base_env node is os v ++ benv ++ scalar_env nt.scalar_type ∧
      nt.threads.1 ≤ MAX_COMPUTE_WORKGROUPS_PER_DIMENSION ∧
      nt.threads.2.1 ≤ MAX_COMPUTE_WORKGROUPS_PER_DIMENSION ∧
      nt.threads.2.2 ≤ MAX_COMPUTE_WORKGROUPS_PER_DIMENSION := by
  cases hs : compile_select node is os v with
  | error e =>
    rw [compile_error_of_select hs] at h
    exact absurd h (by simp)
  | ok p =>
    obtain ⟨nt, benv⟩ := p
    have hc : compile node is os v =
        (if nt.threads.1 > MAX_COMPUTE_WORKGROUPS_PER_DIMENSION then
          .error (.ComputeLimitExceeded "X threads" nt.threads.1
            MAX_COMPUTE_WORKGROUPS_PER_DIMENSION)
        else if nt.threads.2.1 > MAX_COMPUTE_WORKGROUPS_PER_DIMENSION then
          .error (.ComputeLimitExceeded "Y threads" nt.threads.2.1
            MAX_COMPUTE_WORKGROUPS_PER_DIMENSION)
        else if nt.threads.2.2 > MAX_COMPUTE_WORKGROUPS_PER_DIMENSION then
          .error (.ComputeLimitExceeded "Z threads" nt.threads.2.2
            MAX_COMPUTE_WORKGROUPS_PER_DIMENSION)
        else
          .ok { template := nt.template, threads := nt.threads,
                env := base_env node is os v ++ benv ++
                       scalar_env nt.scalar_type }) := by
      unfold compile
      rw [hs]
    rw [hc] at h
    split at h
    next h1 => exact absurd h (by simp)
    next h1 =>
      split at h
      next h2 => exact absurd h (by simp)
      next h2 =>
        split at h
        next h3 => exact absurd h (by simp)
        next h3 =>
          injection h with h'
          subst h'
          exact ⟨nt, benv, rfl, rfl, rfl, rfl, by omega, by omega, by omega⟩

/-- C1 (amended): the compiler enforces the upper limit — whenever `compile`
succeeds, each of the three thread counts is at most
`MAX_COMPUTE_WORKGROUPS_PER_DIMENSION` (65535), and whenever a selected
per-dimension thread count exceeds the limit, `compile` returns
`ComputeLimitExceeded` for the first offending dimension instead of Ok.
(The lower bound `threads ≥ 1` claimed by the spec does not hold: see the
counterexample, where `MatMul` on 2×2 inputs succeeds with `threads.x = 0`.) -/
theorem C1_compile_thread_limits (node : Node) (input_shapes output_shapes : List Shape)
    (v : Int) :
    (∀ c, compile node input_shapes output_shapes v = .ok c →
      c.threads.1 ≤ MAX_COMPUTE_WORKGROUPS_PER_DIMENSION ∧
      c.threads.2.1 ≤ MAX_COMPUTE_WORKGROUPS_PER_DIMENSION ∧
      c.threads.2.2 ≤ MAX_COMPUTE_WORKGROUPS_PER_DIMENSION) ∧
    (∀ nt benv, compile_select node input_shapes output_shapes v = .ok (nt, benv) →
      (nt.threads.1 > MAX_COMPUTE_WORKGROUPS_PER_DIMENSION →
        compile node input_shapes output_shapes v =
          .error (.ComputeLimitExceeded "X threads" nt.threads.1
            MAX_COMPUTE_WORKGROUPS_PER_DIMENSION)) ∧
      (nt.threads.1 ≤ MAX_COMPUTE_WORKGROUPS_PER_DIMENSION →
       nt.threads.2.1 > MAX_COMPUTE_WORKGROUPS_PER_DIMENSION →
        compile node input_shapes output_shapes v =
          .error (.ComputeLimitExceeded "Y threads" nt.threads.2.1
            MAX_COMPUTE_WORKGROUPS_PER_DIMENSION)) ∧
      (nt.threads.1 ≤ MAX_COMPUTE_WORKGROUPS_PER_DIMENSION →
       nt.threads.2.1 ≤ MAX_COMPUTE_WORKGROUPS_PER_DIMENSION →
       nt.threads.2.2 > MAX_COMPUTE_WORKGROUPS_PER_DIMENSION →
        compile node input_shapes output_shapes v =
          .error (.ComputeLimitExceeded "Z threads" nt.threads.2.2
            MAX_COMPUTE_WORKGROUPS_PER_DIMENSION))) := by
  constructor
  · intro c h
    obtain ⟨nt, benv, _, _, hthreads, _, b1, b2, b3⟩ := compile_ok_inv h
    rw [hthreads]
    exact ⟨b1, b2, b3⟩
  · intro nt benv hs
    have hc : compile node input_shapes output_shapes v =
        (if nt.threads.1 > MAX_COMPUTE_WORKGROUPS_PER_DIMENSION then
          .error (.ComputeLimitExceeded "X threads" nt.threads.1
            MAX_COMPUTE_WORKGROUPS_PER_DIMENSION)
        else if nt.threads.2.1 > MAX_COMPUTE_WORKGROUPS_PER_DIMENSION then
          .error (.ComputeLimitExceeded "Y threads" nt.threads.2.1
            MAX_COMPUTE_WORKGROUPS_PER_DIMENSION)
        else if nt.threads.2.2 > MAX_COMPUTE_WORKGROUPS_PER_DIMENSION then
          .error (.ComputeLimitExceeded "Z threads" nt.threads.2.2
            MAX_COMPUTE_WORKGROUPS_PER_DIMENSION)
        else
          .ok { template := nt.template, threads := nt.threads,
                env := base_env node input_shapes output_shapes v ++
                       benv ++ scalar_env nt.scalar_type }) := by
      unfold compile
      rw [hs]
    refine ⟨fun h1 => ?_, fun h1 h2 => ?_, fun h1 h2 h3 => ?_⟩
    · rw [hc, if_pos h1]
    · rw [hc, if_neg (by omega), if_pos h2]
    · rw [hc, if_neg (by omega), if_neg (by omega), if_pos h3]

/-- C1 counterexample: `MatMul` on two 2×2 `f32` inputs (an input that
satisfies every precondition the spec states for `MatMul`) compiles
successfully with `threads = (4·4/16, 1, 1) = (0, 1, 1)` — the x thread
count is 0, refuting the claimed lower bound `threads.x ≥ 1`. -/
theorem C1_compile_thread_limits_counterexample :
    ok_threads (compile ⟨"MatMul", []⟩ [Shape.mk [2, 2] .F32, Shape.mk [2, 2] .F32]
      [Shape.mk [2, 2] .F32] 13) = some (0, 1, 1) := by
  rfl

/-- Closed witness for C1: a `Concat` whose output needs 65536 workgroups in
the x dimension is rejected with `ComputeLimitExceeded`. -/
theorem C1_compile_thread_limits_witness :
    compile ⟨"Concat", []⟩ [Shape.mk [1] .F32] [Shape.mk [16777216] .F32] 13 =
      .error (.ComputeLimitExceeded "X threads" 65536 65535) := by
  have h := (C1_compile_thread_limits ⟨"Concat", []⟩ [Shape.mk [1] .F32]
    [Shape.mk [16777216] .F32] 13).2
    { scalar_type := .F32, template := "matrix/concat.wgsl", threads := (65536, 1, 1) }
    [("cum_len", .tNatList [1])] (by rfl)
  exact h.1 (by decide)

/-- C8: for a `Split` node whose `axis` attribute resolves to `a`, the axis
value bound into the template environment is `a + element_count(input 0)`
when `a` is negative (the element count, not the rank), and `a` unchanged
otherwise. -/
theorem C8_split_axis (attrs : List (String × AttrValue)) (input_shapes output_shapes : List Shape)
    (v : Int) (a : Int)
    (ha : get_attribute_i64 "axis" (some 0) ⟨"Split", attrs⟩ = .ok a) :
    ∀ c, compile ⟨"Split", attrs⟩ input_shapes output_shapes v = .ok c →
      context_get c.env "axis" =
        some (.tInt (if a < 0 then
          a + ((shape_at input_shapes 0).element_count : Int) else a)) := by
  intro c h
  obtain ⟨nt, benv, hsel, htpl, hthr, henv, b1, b2, b3⟩ := compile_ok_inv h
  have hsel2 : compile_split ⟨"Split", attrs⟩ input_shapes output_shapes = .ok (nt, benv) :=
    hsel
  unfold compile_split at hsel2
  simp only [ha] at hsel2
  by_cases hlt : a < 0
  · rw [if_pos hlt] at hsel2
    rw [if_pos hlt]
    repeat' split at hsel2
    all_goals try exact Except.noConfusion hsel2
    injection hsel2 with h2
    injection h2 with hnt hbenv
    subst hbenv
    rw [henv]
    simp [context_get, base_env, scalar_env, List.foldl]
  · rw [if_neg hlt] at hsel2
    rw [if_neg hlt]
    repeat' split at hsel2
    all_goals try exact Except.noConfusion hsel2
    injection hsel2 with h2
    injection h2 with hnt hbenv
    subst hbenv
    rw [henv]
    simp [context_get, base_env, scalar_env, List.foldl]

/-- Closed witness for C8: `Split` with `axis = -1` on an input of shape
`[1, 2]` (element count 2) binds `axis = -1 + 2 = 1`. -/
theorem C8_split_axis_witness :
    ok_binding (compile ⟨"Split", [("axis", .aInt (-1))]⟩ [Shape.mk [1, 2] .F32]
      [Shape.mk [1, 1] .F32, Shape.mk [1, 1] .F32] 13) "axis" = some (.tInt 1) := by
  cases hc : compile ⟨"Split", [("axis", .aInt (-1))]⟩ [Shape.mk [1, 2] .F32]
      [Shape.mk [1, 1] .F32, Shape.mk [1, 1] .F32] 13 with
  | error e =>
    have hok : compile_ok (compile ⟨"Split", [("axis", .aInt (-1))]⟩ [Shape.mk [1, 2] .F32]
        [Shape.mk [1, 1] .F32, Shape.mk [1, 1] .F32] 13) = true := by rfl
    rw [hc] at hok
    simp [compile_ok] at hok
  | ok c =>
    have h := C8_split_axis [("axis", .aInt (-1))] [Shape.mk [1, 2] .F32]
      [Shape.mk [1, 1] .F32, Shape.mk [1, 1] .F32] 13 (-1) (by rfl) c hc
    have h2 : ok_binding (Except.ok c : Except CompileError CompiledNode) "axis" =
        context_get c.env "axis" := rfl
    rw [h2, h]
    rfl

/-- The normalized reduction axes as the claim states them: each negative
index is replaced by `rank + index`. -/
def normalized_axes (rank : Nat) (axes_raw : List Int) : List Int :=
  axes_raw.map (fun idx => if idx < 0 then (rank : Int) + idx else idx)

/-- The claim's preserved-rank dims: every reduced dimension set to 1, the
others kept. -/
def reduced_dims_preserved (s : Shape) (axes : List Int) : List Nat :=
  s.dims.enum.map (fun p => if axes.contains (p.1 : Int) then 1 else p.2)

lemma reduce_chunks_bridge (s : Shape) (axes : List Int) (st : ScalarType) :
    (Shape.mk ((s.dims.enum.map (fun p =>
      if axes.contains (p.1 : Int) then 1 else (p.2 : Int))).map Int.toNat) st).chunks =
    Shape.chunks ⟨reduced_dims_preserved s axes, s.data_type⟩ := by
  have hd : ((s.dims.enum.map (fun p =>
      if axes.contains (p.1 : Int) then 1 else (p.2 : Int))).map Int.toNat) =
      reduced_dims_preserved s axes := by
    rw [List.map_map]
    unfold reduced_dims_preserved
    refine List.map_congr_left ?_
    intro p _
    by_cases hmem : ((p.1 : Nat) : Int) ∈ axes <;> simp [hmem]
  rw [hd]
  rfl

/-- C6: for every reduce-family node, the `axes` attribute defaults to all
input axes, negative entries are normalized by adding the rank of input 0,
and `chunks_with_dims_preserved` is bound to the chunk vector of input 0's
shape with every reduced dimension set to 1 and the rank kept — so its
length equals the rank of input 0. -/
theorem C6_reduce_env (op : String)
    (hop : op = "ReduceMean" ∨ op = "ReduceSum" ∨ op = "ReduceMax" ∨ op = "ReduceMin" ∨
      op = "ReduceProd" ∨ op = "ReduceL1" ∨ op = "ReduceL2" ∨ op = "ReduceLogSum" ∨
      op = "ReduceLogSumExp" ∨ op = "ReduceSumSquare")
    (attrs : List (String × AttrValue)) (input_shapes output_shapes : List Shape)
    (v : Int) (axes_raw : List Int)
    (ha : get_attribute_ints "axes"
      (some (int_range 0 ((dims_at input_shapes 0).length : Int)))
      ⟨op, attrs⟩ = .ok axes_raw) :
    ∀ c, compile ⟨op, attrs⟩ input_shapes output_shapes v = .ok c →
      context_get c.env "axes" = some (.tIntList
        (normalized_axes (dims_at input_shapes 0).length axes_raw)) ∧
      context_get c.env "chunks_with_dims_preserved" = some (.tNatList
        (Shape.chunks ⟨reduced_dims_preserved (shape_at input_shapes 0)
          (normalized_axes (dims_at input_shapes 0).length axes_raw),
          (shape_at input_shapes 0).data_type⟩)) ∧
      (Shape.chunks ⟨reduced_dims_preserved (shape_at input_shapes 0)
        (normalized_axes (dims_at input_shapes 0).length axes_raw),
        (shape_at input_shapes 0).data_type⟩).length = (shape_at input_shapes 0).rank := by
  intro c h
  obtain ⟨nt, benv, hsel, htpl, hthr, henv, b1, b2, b3⟩ := compile_ok_inv h
  rcases hop with rfl | rfl | rfl | rfl | rfl | rfl | rfl | rfl | rfl | rfl <;>
  · replace hsel : compile_reduce ⟨_, attrs⟩ input_shapes output_shapes = .ok (nt, benv) :=
      hsel
    unfold compile_reduce at hsel
    simp only [ha] at hsel
    repeat' split at hsel
    all_goals try exact Except.noConfusion hsel
    injection hsel with h2
    injection h2 with hnt hbenv
    subst hbenv
    rw [henv]
    refine ⟨by rfl, ?_, by simp [Shape.chunks, Shape.rank, reduced_dims_preserved]⟩
    rw [reduce_chunks_bridge]
    try rfl

/-- Closed witness for C6: `ReduceSum` over `[3, 2, 2]` with `axes = [-2]`
normalizes the axes to `[1]` and binds the chunk vector `[2, 2, 1]` of shape
`[3, 1, 2]` (length 3 = rank). -/
theorem C6_reduce_env_witness :
    ok_binding (compile ⟨"ReduceSum", [("axes", .aInts [-2])]⟩ [Shape.mk [3, 2, 2] .F32]
      [Shape.mk [3, 2] .F32] 13) "axes" = some (.tIntList [1]) ∧
    ok_binding (compile ⟨"ReduceSum", [("axes", .aInts [-2])]⟩ [Shape.mk [3, 2, 2] .F32]
      [Shape.mk [3, 2] .F32] 13) "chunks_with_dims_preserved" =
      some (.tNatList [2, 2, 1]) := by
  cases hc : compile ⟨"ReduceSum", [("axes", .aInts [-2])]⟩ [Shape.mk [3, 2, 2] .F32]
      [Shape.mk [3, 2] .F32] 13 with
  | error e =>
    have hok : compile_ok (compile ⟨"ReduceSum", [("axes", .aInts [-2])]⟩
        [Shape.mk [3, 2, 2] .F32] [Shape.mk [3, 2] .F32] 13) = true := by rfl
    rw [hc] at hok
    simp [compile_ok] at hok
  | ok c =>
    have h := C6_reduce_env "ReduceSum" (Or.inr (Or.inl rfl)) [("axes", .aInts [-2])]
      [Shape.mk [3, 2, 2] .F32] [Shape.mk [3, 2] .F32] 13 [-2] (by rfl) c hc
    have e1 : ok_binding (Except.ok c : Except CompileError CompiledNode) "axes" =
        context_get c.env "axes" := rfl
    have e2 : ok_binding (Except.ok c : Except CompileError CompiledNode)
        "chunks_with_dims_preserved" =
        context_get c.env "chunks_with_dims_preserved" := rfl
    constructor
    · rw [e1, h.1]
      rfl
    · rw [e2, h.2.1]
      rfl

lemma select_pool_max (attrs : List (String × AttrValue)) (is os : List Shape) (v : Int) :
    compile_select ⟨"MaxPool", attrs⟩ is os v =
      compile_pool_conv "MaxPool" ⟨"MaxPool", attrs⟩ is os := rfl

lemma select_pool_avg (attrs : List (String × AttrValue)) (is os : List Shape) (v : Int) :
    compile_select ⟨"AveragePool", attrs⟩ is os v =
      compile_pool_conv "AveragePool" ⟨"AveragePool", attrs⟩ is os := rfl

lemma select_pool_conv (attrs : List (String × AttrValue)) (is os : List Shape) (v : Int) :
    compile_select ⟨"Conv", attrs⟩ is os v =
      compile_pool_conv "Conv" ⟨"Conv", attrs⟩ is os := rfl

lemma select_pool_convrelu (attrs : List (String × AttrValue)) (is os : List Shape) (v : Int) :
    compile_select ⟨"ConvRelu", attrs⟩ is os v =
      compile_pool_conv "ConvRelu" ⟨"ConvRelu", attrs⟩ is os := rfl

lemma select_pool_convleaky (attrs : List (String × AttrValue)) (is os : List Shape) (v : Int) :
    compile_select ⟨"ConvLeakyRelu", attrs⟩ is os v =
      compile_pool_conv "ConvLeakyRelu" ⟨"ConvLeakyRelu", attrs⟩ is os := rfl

lemma select_pool_convmish (attrs : List (String × AttrValue)) (is os : List Shape) (v : Int) :
    compile_select ⟨"ConvMish", attrs⟩ is os v =
      compile_pool_conv "ConvMish" ⟨"ConvMish", attrs⟩ is os := rfl

lemma select_pool_global (attrs : List (String × AttrValue)) (is os : List Shape) (v : Int) :
    compile_select ⟨"GlobalAveragePool", attrs⟩ is os v =
      compile_pool_conv "GlobalAveragePool" ⟨"GlobalAveragePool", attrs⟩ is os := rfl

/-- C5: for every pooling/convolution-family node, with `auto_pad =
"SAME_UPPER"` the pads bound into the template environment are
`[s0/2, s1/2, s0/2 + s0%2, s1/2 + s1%2]` where
`si = -strides[i] + (kernel_shape[i] - 1)*dilations[i] + 1` (truncating
division/remainder); with `"SAME_LOWER"` the remainders go to the first two
entries instead; and any other value except `"NOTSET"` fails with
`UnimplementedVariant`. -/
theorem C5_auto_pad_pads (op : String)
    (hop : op = "MaxPool" ∨ op = "AveragePool" ∨ op = "Conv" ∨ op = "ConvRelu" ∨
      op = "ConvLeakyRelu" ∨ op = "ConvMish" ∨ op = "GlobalAveragePool")
    (attrs : List (String × AttrValue)) (input_shapes output_shapes : List Shape) (v : Int)
    (strides dilations kernel_shape : List Int)
    (hstr : get_attribute_ints "strides" (some [1, 1]) ⟨op, attrs⟩ = .ok strides)
    (hdil : get_attribute_ints "dilations" (some [1, 1]) ⟨op, attrs⟩ = .ok dilations)
    (hker : (if op = "GlobalAveragePool" then
        .ok [((shape_at input_shapes 0).dim 2 : Int), ((shape_at input_shapes 0).dim 3 : Int)]
      else get_attribute_ints "kernel_shape" none ⟨op, attrs⟩ :
      Except CompileError (List Int)) = .ok kernel_shape) :
    (get_attribute_string "auto_pad" (some "NOTSET") ⟨op, attrs⟩ = .ok "SAME_UPPER" →
      ∀ c, compile ⟨op, attrs⟩ input_shapes output_shapes v = .ok c →
        context_get c.env "pad" = some (.tIntList
          [Int.tdiv (-(strides.getD 0 0) + ((kernel_shape.getD 0 0 - 1) * dilations.getD 0 0 + 1)) 2,
           Int.tdiv (-(strides.getD 1 0) + ((kernel_shape.getD 1 0 - 1) * dilations.getD 1 0 + 1)) 2,
           Int.tdiv (-(strides.getD 0 0) + ((kernel_shape.getD 0 0 - 1) * dilations.getD 0 0 + 1)) 2 +
             Int.tmod (-(strides.getD 0 0) + ((kernel_shape.getD 0 0 - 1) * dilations.getD 0 0 + 1)) 2,
           Int.tdiv (-(strides.getD 1 0) + ((kernel_shape.getD 1 0 - 1) * dilations.getD 1 0 + 1)) 2 +
             Int.tmod (-(strides.getD 1 0) + ((kernel_shape.getD 1 0 - 1) * dilations.getD 1 0 + 1)) 2])) ∧
    (get_attribute_string "auto_pad" (some "NOTSET") ⟨op, attrs⟩ = .ok "SAME_LOWER" →
      ∀ c, compile ⟨op, attrs⟩ input_shapes output_shapes v = .ok c →
        context_get c.env "pad" = some (.tIntList
          [Int.tdiv (-(strides.getD 0 0) + ((kernel_shape.getD 0 0 - 1) * dilations.getD 0 0 + 1)) 2 +
             Int.tmod (-(strides.getD 0 0) + ((kernel_shape.getD 0 0 - 1) * dilations.getD 0 0 + 1)) 2,
           Int.tdiv (-(strides.getD 1 0) + ((kernel_shape.getD 1 0 - 1) * dilations.getD 1 0 + 1)) 2 +
             Int.tmod (-(strides.getD 1 0) + ((kernel_shape.getD 1 0 - 1) * dilations.getD 1 0 + 1)) 2,
           Int.tdiv (-(strides.getD 0 0) + ((kernel_shape.getD 0 0 - 1) * dilations.getD 0 0 + 1)) 2,
           Int.tdiv (-(strides.getD 1 0) + ((kernel_shape.getD 1 0 - 1) * dilations.getD 1 0 + 1)) 2])) ∧
    (∀ w pads0, get_attribute_string "auto_pad" (some "NOTSET") ⟨op, attrs⟩ = .ok w →
      get_attribute_ints "pads" (some [0, 0, 0, 0]) ⟨op, attrs⟩ = .ok pads0 →
      w ≠ "NOTSET" → w ≠ "SAME_UPPER" → w ≠ "SAME_LOWER" →
      compile ⟨op, attrs⟩ input_shapes output_shapes v =
        .error (.UnimplementedVariant ("auto_pad=" ++ w) op)) := by
  refine ⟨?_, ?_, ?_⟩
  · intro hap c h
    obtain ⟨nt, benv, hsel, htpl, hthr, henv, b1, b2, b3⟩ := compile_ok_inv h
    rcases hop with rfl | rfl | rfl | rfl | rfl | rfl | rfl <;>
    · simp only [select_pool_max, select_pool_avg, select_pool_conv, select_pool_convrelu,
        select_pool_convleaky, select_pool_convmish, select_pool_global] at hsel
      simp only [String.reduceEq, reduceIte] at hker
      unfold compile_pool_conv at hsel
      simp only [hap, hdil, hstr, hker, String.reduceEq, reduceIte, or_false, false_or,
        or_true, true_or] at hsel
      repeat' split at hsel
      all_goals try exact Except.noConfusion hsel
      all_goals
        (injection hsel with h2
         injection h2 with hnt hbenv
         subst hbenv
         rw [henv]
         rfl)
  · intro hap c h
    obtain ⟨nt, benv, hsel, htpl, hthr, henv, b1, b2, b3⟩ := compile_ok_inv h
    rcases hop with rfl | rfl | rfl | rfl | rfl | rfl | rfl <;>
    · simp only [select_pool_max, select_pool_avg, select_pool_conv, select_pool_convrelu,
        select_pool_convleaky, select_pool_convmish, select_pool_global] at hsel
      simp only [String.reduceEq, reduceIte] at hker
      unfold compile_pool_conv at hsel
      simp only [hap, hdil, hstr, hker, String.reduceEq, reduceIte, or_false, false_or,
        or_true, true_or] at hsel
      repeat' split at hsel
      all_goals try exact Except.noConfusion hsel
      all_goals
        (injection hsel with h2
         injection h2 with hnt hbenv
         subst hbenv
         rw [henv]
         rfl)
  · intro w pads0 hap hpads hw1 hw2 hw3
    rcases hop with rfl | rfl | rfl | rfl | rfl | rfl | rfl <;>
    · simp only [String.reduceEq, reduceIte] at hker
      refine compile_error_of_select ?_
      simp only [select_pool_max, select_pool_avg, select_pool_conv, select_pool_convrelu,
        select_pool_convleaky, select_pool_convmish, select_pool_global]
      unfold compile_pool_conv
      simp only [hap, hdil, hstr, hker, hpads, String.reduceEq, reduceIte, or_false,
        false_or, or_true, true_or]
      rw [if_neg hw1, if_neg hw2, if_neg hw3]

/-- Closed witness for C5: `Conv` with kernel `[3, 3]`, strides `[2, 2]`,
`auto_pad = "SAME_UPPER"` binds pads `[0, 0, 1, 1]` (slack 1 per dim). -/
theorem C5_auto_pad_pads_witness :
    ok_binding (compile ⟨"Conv", [("auto_pad", .aStr "SAME_UPPER"),
      ("kernel_shape", .aInts [3, 3]), ("strides", .aInts [2, 2])]⟩
      [Shape.mk [1, 1, 4, 4] .F32] [Shape.mk [1, 1, 2, 2] .F32] 13) "pad" =
      some (.tIntList [0, 0, 1, 1]) := by
  cases hc : compile ⟨"Conv", [("auto_pad", .aStr "SAME_UPPER"),
      ("kernel_shape", .aInts [3, 3]), ("strides", .aInts [2, 2])]⟩
      [Shape.mk [1, 1, 4, 4] .F32] [Shape.mk [1, 1, 2, 2] .F32] 13 with
  | error e =>
    have hok : compile_ok (compile ⟨"Conv", [("auto_pad", .aStr "SAME_UPPER"),
        ("kernel_shape", .aInts [3, 3]), ("strides", .aInts [2, 2])]⟩
        [Shape.mk [1, 1, 4, 4] .F32] [Shape.mk [1, 1, 2, 2] .F32] 13) = true := by rfl
    rw [hc] at hok
    simp [compile_ok] at hok
  | ok c =>
    have h := (C5_auto_pad_pads "Conv" (Or.inr (Or.inr (Or.inl rfl)))
      [("auto_pad", .aStr "SAME_UPPER"), ("kernel_shape", .aInts [3, 3]),
       ("strides", .aInts [2, 2])]
      [Shape.mk [1, 1, 4, 4] .F32] [Shape.mk [1, 1, 2, 2] .F32] 13
      [2, 2] [1, 1] [3, 3] (by rfl) (by rfl) (by rfl)).1 (by rfl) c hc
    have e1 : ok_binding (Except.ok c : Except CompileError CompiledNode) "pad" =
        context_get c.env "pad" := rfl
    rw [e1, h]
    rfl

lemma check_shapes_all {t : ScalarType} : ∀ (l : List Shape),
    (∀ s ∈ l, s.data_type = t) → check_shapes (some t) l = .ok (some t)
  | [], _ => rfl
  | s :: rest, h => by
    show (if t = s.data_type then check_shapes (some t) rest
          else Except.error (CompileError.TypesDisagree t s.data_type)) = Except.ok (some t)
    rw [if_pos (h s (List.mem_cons_self s rest)).symm]
    exact check_shapes_all rest (fun r hr => h r (List.mem_cons_of_mem s hr))

lemma agreed_type_all {l : List Shape} {t : ScalarType} (h : ∀ s ∈ l, s.data_type = t)
    (hne : l ≠ []) : agreed_type l [] = .ok t := by
  cases l with
  | nil => exact absurd rfl hne
  | cons s rest =>
    unfold agreed_type
    have h1 : check_shapes none (s :: rest) = .ok (some t) := by
      show check_shapes (some s.data_type) rest = _
      rw [h s (List.mem_cons_self s rest)]
      exact check_shapes_all rest (fun r hr => h r (List.mem_cons_of_mem s hr))
    rw [h1]
    rfl

lemma get_attribute_i64_error {n : String} {d : Option Int} {node : Node} {e : CompileError}
    (h : get_attribute_i64 n d node = .error e) : e = .AttributeNotFound n := by
  unfold get_attribute_i64 at h
  repeat' split at h
  all_goals first
  | exact Except.noConfusion h
  | (injection h with h2; exact h2.symm)

lemma workgroup_size_error_not_td {x mt mg : Nat} {e : CompileError}
    (h : workgroup_size x mt mg = .error e) (a b : ScalarType) :
    e ≠ .TypesDisagree a b := by
  simp only [workgroup_size] at h
  repeat' split at h
  all_goals first
  | exact Except.noConfusion h
  | (injection h with h2; subst h2; simp)

lemma compile_error_inv {node : Node} {is os : List Shape} {v : Int} {e : CompileError}
    (h : compile node is os v = .error e) :
    compile_select node is os v = .error e ∨
    ∃ d r l, e = .ComputeLimitExceeded d r l := by
  cases hs : compile_select node is os v with
  | error e2 =>
    rw [compile_error_of_select hs] at h
    injection h with h2
    subst h2
    exact Or.inl rfl
  | ok p =>
    obtain ⟨nt, benv⟩ := p
    have hc : compile node is os v =
        (if nt.threads.1 > MAX_COMPUTE_WORKGROUPS_PER_DIMENSION then
          .error (.ComputeLimitExceeded "X threads" nt.threads.1
            MAX_COMPUTE_WORKGROUPS_PER_DIMENSION)
        else if nt.threads.2.1 > MAX_COMPUTE_WORKGROUPS_PER_DIMENSION then
          .error (.ComputeLimitExceeded "Y threads" nt.threads.2.1
            MAX_COMPUTE_WORKGROUPS_PER_DIMENSION)
        else if nt.threads.2.2 > MAX_COMPUTE_WORKGROUPS_PER_DIMENSION then
          .error (.ComputeLimitExceeded "Z threads" nt.threads.2.2
            MAX_COMPUTE_WORKGROUPS_PER_DIMENSION)
        else
          .ok { template := nt.template, threads := nt.threads,
                env := base_env node is os v ++ benv ++
                       scalar_env nt.scalar_type }) := by
      unfold compile
      rw [hs]
    rw [hc] at h
    split at h
    · injection h with h2
      exact Or.inr ⟨_, _, _, h2.symm⟩
    · split at h
      · injection h with h2
        exact Or.inr ⟨_, _, _, h2.symm⟩
      · split at h
        · injection h with h2
          exact Or.inr ⟨_, _, _, h2.symm⟩
        · exact Except.noConfusion h

/-- C7: For a Cast node whose input shapes all share data type t, compilation never
fails with TypesDisagree (the output shapes' data types are not consulted by the
type agreement check), and on success the agreed type of the inputs alone is t and
the "scalar_type" binding in the shader environment is t's WGSL type name. -/
theorem C7_cast_scalar_type (attrs : List (String × AttrValue)) (input_shapes output_shapes : List Shape)
    (v : Int) (t : ScalarType) (hall : ∀ s ∈ input_shapes, s.data_type = t) :
    (∀ a b, compile ⟨"Cast", attrs⟩ input_shapes output_shapes v ≠
      .error (.TypesDisagree a b)) ∧
    (∀ c, compile ⟨"Cast", attrs⟩ input_shapes output_shapes v = .ok c →
      agreed_type input_shapes [] = .ok t ∧
      context_get c.env "scalar_type" = some (.tStr t.wgsl_type_name)) := by
  constructor
  · intro a b hcon
    rcases compile_error_inv hcon with hsel | ⟨d, r, l, habs⟩
    · replace hsel : compile_cast ⟨_, attrs⟩ input_shapes output_shapes =
        .error (.TypesDisagree a b) := hsel
      unfold compile_cast at hsel
      cases h1 : get_attribute_i64 "to" none (Node.mk "Cast" attrs) with
      | error e1 =>
        simp only [h1] at hsel
        injection hsel with h2
        rw [get_attribute_i64_error h1] at h2
        exact CompileError.noConfusion h2
      | ok tv =>
        simp only [h1] at hsel
        cases h2 : ScalarType.from_i32 (i64_as_i32 tv) with
        | none =>
          simp only [h2] at hsel
          injection hsel with h3
          exact CompileError.noConfusion h3
        | some ct =>
          simp only [h2] at hsel
          cases h3 : workgroup_size (ceil (lens_at output_shapes 0) 4)
              MAX_COMPUTE_WORKGROUPS_PER_DIMENSION MAX_WORKGROUP_SIZE_X with
          | error e3 =>
            simp only [h3] at hsel
            injection hsel with h4
            exact absurd h4 (workgroup_size_error_not_td h3 a b)
          | ok p =>
            obtain ⟨xt, wgx⟩ := p
            simp only [h3] at hsel
            cases h4 : agreed_type input_shapes [] with
            | error e4 =>
              simp only [h4] at hsel
              injection hsel with h5
              cases his : input_shapes with
              | nil =>
                subst his
                rw [show agreed_type ([] : List Shape) [] =
                  .error .TypeUnderspecified from rfl] at h4
                injection h4 with h6
                rw [← h6] at h5
                exact CompileError.noConfusion h5
              | cons s rest =>
                rw [agreed_type_all hall (by simp [his])] at h4
                exact Except.noConfusion h4
            | ok t0 =>
              simp only [h4] at hsel
              exact Except.noConfusion hsel
    · exact absurd habs (by simp)
  · intro c h
    obtain ⟨nt, benv, hsel, htpl, hthr, henv, b1, b2, b3⟩ := compile_ok_inv h
    replace hsel : compile_cast ⟨_, attrs⟩ input_shapes output_shapes = .ok (nt, benv) :=
      hsel
    unfold compile_cast at hsel
    cases h1 : get_attribute_i64 "to" none (Node.mk "Cast" attrs) with
    | error e1 => simp only [h1] at hsel; exact Except.noConfusion hsel
    | ok tv =>
      simp only [h1] at hsel
      cases h2 : ScalarType.from_i32 (i64_as_i32 tv) with
      | none => simp only [h2] at hsel; exact Except.noConfusion hsel
      | some ct =>
        simp only [h2] at hsel
        cases h3 : workgroup_size (ceil (lens_at output_shapes 0) 4)
            MAX_COMPUTE_WORKGROUPS_PER_DIMENSION MAX_WORKGROUP_SIZE_X with
        | error e3 => simp only [h3] at hsel; exact Except.noConfusion hsel
        | ok p =>
          obtain ⟨xt, wgx⟩ := p
          simp only [h3] at hsel
          cases h4 : agreed_type input_shapes [] with
          | error e4 => simp only [h4] at hsel; exact Except.noConfusion hsel
          | ok t0 =>
            simp only [h4] at hsel
            have ht0 : t0 = t := by
              cases his : input_shapes with
              | nil =>
                subst his
                rw [show agreed_type ([] : List Shape) [] =
                  .error .TypeUnderspecified from rfl] at h4
                exact Except.noConfusion h4
              | cons s rest =>
                rw [agreed_type_all hall (by simp [his])] at h4
                injection h4 with h5
                exact h5.symm
            refine ⟨by rw [ht0], ?_⟩
            injection hsel with h5
            injection h5 with hnt hbenv
            subst hbenv
            rw [henv, ← hnt, ← ht0]
            rfl


theorem C7_cast_scalar_type_witness :
    (∀ s ∈ [Shape.mk [4] ScalarType.I32], s.data_type = ScalarType.I32) ∧
    compile ⟨"Cast", [("to", AttrValue.aInt 1)]⟩ [Shape.mk [4] ScalarType.I32]
      [Shape.mk [4] ScalarType.F32] 13 ≠
      Except.error (.TypesDisagree ScalarType.F32 ScalarType.I32) ∧
    ok_binding (compile ⟨"Cast", [("to", AttrValue.aInt 1)]⟩ [Shape.mk [4] ScalarType.I32]
      [Shape.mk [4] ScalarType.F32] 13) "scalar_type" = some (.tStr "i32") := by
  have hall : ∀ s ∈ [Shape.mk [4] ScalarType.I32], s.data_type = ScalarType.I32 := by
    intro s hs
    simp only [List.mem_singleton] at hs
    rw [hs]
  have h := C7_cast_scalar_type [("to", AttrValue.aInt 1)] [Shape.mk [4] ScalarType.I32]
    [Shape.mk [4] ScalarType.F32] 13 ScalarType.I32 hall
  refine ⟨hall, h.1 ScalarType.F32 ScalarType.I32, ?_⟩
  cases hc : compile ⟨"Cast", [("to", AttrValue.aInt 1)]⟩ [Shape.mk [4] ScalarType.I32]
      [Shape.mk [4] ScalarType.F32] 13 with
  | error e =>
    have hok : compile_ok (compile ⟨"Cast", [("to", AttrValue.aInt 1)]⟩
        [Shape.mk [4] ScalarType.I32] [Shape.mk [4] ScalarType.F32] 13) = true := by rfl
    rw [hc] at hok
    simp [compile_ok] at hok
  | ok c =>
    have h2 := (h.2 c hc).2
    have e1 : ok_binding (Except.ok c : Except CompileError CompiledNode) "scalar_type" =
        context_get c.env "scalar_type" := rfl
    rw [e1, h2]
    rfl

lemma select_softmax (attrs : List (String × AttrValue)) (is os : List Shape) (v : Int) :
    compile_select ⟨"Softmax", attrs⟩ is os v = compile_softmax ⟨"Softmax", attrs⟩ is os v :=
  rfl

lemma softmax_default_axis_1_12 {v : Int} (h1 : 1 ≤ v) (h2 : v ≤ 12) :
    softmax_default_axis v = .ok 1 := by
  unfold softmax_default_axis
  by_cases h10 : 1 ≤ v ∧ v ≤ 10
  · rw [if_pos h10]
  · rw [if_neg h10, if_pos ⟨by omega, h2⟩]

lemma softmax_default_axis_13_15 {v : Int} (h1 : 13 ≤ v) (h2 : v ≤ 15) :
    softmax_default_axis v = .ok (-1) := by
  unfold softmax_default_axis
  rw [if_neg (by omega), if_neg (by omega), if_pos ⟨h1, h2⟩]

lemma softmax_default_axis_bad {v : Int} (h : ¬(1 ≤ v ∧ v ≤ 15)) :
    softmax_default_axis v = .error (.UnsupportedOpsetVersion v) := by
  unfold softmax_default_axis
  rw [if_neg (by omega), if_neg (by omega), if_neg (by omega)]

lemma softmax_with_axis_neg_old {a : Int} {is os : List Shape} {v : Int}
    (hneg : a < 0) (hv : ¬ 13 ≤ v) :
    compile_softmax_with_axis (.ok a) is os v =
      .error (.InvalidAttributeValue "axis" (toString a) v) := by
  simp only [compile_softmax_with_axis]
  rw [if_pos hneg, if_neg hv]

lemma softmax_with_axis_range {a : Int} {is os : List Shape} {v : Int}
    (hge : ((shape_at is 0).rank : Int) ≤ a) :
    compile_softmax_with_axis (.ok a) is os v =
      .error (.InvalidAttributeValue "axis" (toString a) v) := by
  have hnn : ¬ a < 0 := by
    have h0 : (0 : Int) ≤ ((shape_at is 0).rank : Int) := Int.natCast_nonneg _
    omega
  simp only [compile_softmax_with_axis]
  rw [if_neg hnn]
  show softmax_checked_axis a is os v = _
  unfold softmax_checked_axis
  rw [if_pos hge]

lemma compile_ext {n1 n2 : Node} {is os : List Shape} {v : Int}
    (hsel : compile_select n1 is os v = compile_select n2 is os v)
    (hbase : base_env n1 is os v = base_env n2 is os v) :
    compile n1 is os v = compile n2 is os v := by
  unfold compile
  rw [hsel, hbase]

/-- C4: For a Softmax node: an opset version outside 1..=15 yields
UnsupportedOpsetVersion; when no axis attribute is present, compilation behaves
exactly as if axis were set to the default (1 for opset 1..=12, -1 for 13..=15);
a negative axis with opset <= 12 yields InvalidAttributeValue (no normalization);
an axis at or above the input rank yields InvalidAttributeValue; and a successful
compilation always dispatches (1, 1, 1) threads. Amended from the original claim:
a negative axis that is still out of range after normalization (axis < -rank, opset
>= 13) does NOT yield InvalidAttributeValue - it is normalized to a negative value
that passes the one-sided range check and fails later as UnimplementedVariant (see
the counterexample). -/
theorem C4_softmax_axis (attrs : List (String × AttrValue)) (input_shapes output_shapes : List Shape)
    (v : Int) :
    (¬(1 ≤ v ∧ v ≤ 15) →
      compile ⟨"Softmax", attrs⟩ input_shapes output_shapes v =
        .error (.UnsupportedOpsetVersion v)) ∧
    (find_attr ⟨"Softmax", attrs⟩ "axis" = none → 1 ≤ v → v ≤ 12 →
      compile ⟨"Softmax", attrs⟩ input_shapes output_shapes v =
        compile ⟨"Softmax", ("axis", AttrValue.aInt 1) :: attrs⟩
          input_shapes output_shapes v) ∧
    (find_attr ⟨"Softmax", attrs⟩ "axis" = none → 13 ≤ v → v ≤ 15 →
      compile ⟨"Softmax", attrs⟩ input_shapes output_shapes v =
        compile ⟨"Softmax", ("axis", AttrValue.aInt (-1)) :: attrs⟩
          input_shapes output_shapes v) ∧
    (∀ a : Int, find_attr ⟨"Softmax", attrs⟩ "axis" = some (.aInt a) →
      a < 0 → 1 ≤ v → v ≤ 12 →
      compile ⟨"Softmax", attrs⟩ input_shapes output_shapes v =
        .error (.InvalidAttributeValue "axis" (toString a) v)) ∧
    (∀ a : Int, find_attr ⟨"Softmax", attrs⟩ "axis" = some (.aInt a) →
      ((shape_at input_shapes 0).rank : Int) ≤ a → 1 ≤ v → v ≤ 15 →
      compile ⟨"Softmax", attrs⟩ input_shapes output_shapes v =
        .error (.InvalidAttributeValue "axis" (toString a) v)) ∧
    (∀ c, compile ⟨"Softmax", attrs⟩ input_shapes output_shapes v = .ok c →
      c.threads = (1, 1, 1)) := by
  refine ⟨?_, ?_, ?_, ?_, ?_, ?_⟩
  · intro hv
    have hsel : compile_select ⟨"Softmax", attrs⟩ input_shapes output_shapes v =
        .error (.UnsupportedOpsetVersion v) := by
      rw [select_softmax]
      unfold compile_softmax
      rw [softmax_default_axis_bad hv]
    exact compile_error_of_select hsel
  · intro hnone h1 h12
    refine compile_ext ?_ rfl
    rw [select_softmax, select_softmax]
    unfold compile_softmax
    simp only [softmax_default_axis_1_12 h1 h12]
    have hl : get_attribute_i64 "axis" (some 1) (Node.mk "Softmax" attrs) = .ok 1 := by
      unfold get_attribute_i64
      rw [hnone]
    have hr : get_attribute_i64 "axis" (some 1)
        (Node.mk "Softmax" (("axis", AttrValue.aInt 1) :: attrs)) = .ok 1 := rfl
    rw [hl, hr]
  · intro hnone h13 h15
    refine compile_ext ?_ rfl
    rw [select_softmax, select_softmax]
    unfold compile_softmax
    simp only [softmax_default_axis_13_15 h13 h15]
    have hl : get_attribute_i64 "axis" (some (-1)) (Node.mk "Softmax" attrs) = .ok (-1) := by
      unfold get_attribute_i64
      rw [hnone]
    have hr : get_attribute_i64 "axis" (some (-1))
        (Node.mk "Softmax" (("axis", AttrValue.aInt (-1)) :: attrs)) = .ok (-1) := rfl
    rw [hl, hr]
  · intro a hfind hneg h1 h12
    have hl : get_attribute_i64 "axis" (some 1) (Node.mk "Softmax" attrs) = .ok a := by
      unfold get_attribute_i64
      rw [hfind]
    have hsel : compile_select ⟨"Softmax", attrs⟩ input_shapes output_shapes v =
        .error (.InvalidAttributeValue "axis" (toString a) v) := by
      rw [select_softmax]
      unfold compile_softmax
      simp only [softmax_default_axis_1_12 h1 h12]
      rw [hl]
      exact softmax_with_axis_neg_old hneg (by omega)
    exact compile_error_of_select hsel
  · intro a hfind hge h1 h15
    obtain ⟨d, hd⟩ : ∃ d, softmax_default_axis v = .ok d := by
      by_cases h12 : v ≤ 12
      · exact ⟨1, softmax_default_axis_1_12 h1 h12⟩
      · exact ⟨-1, softmax_default_axis_13_15 (by omega) h15⟩
    have hl : get_attribute_i64 "axis" (some d) (Node.mk "Softmax" attrs) = .ok a := by
      unfold get_attribute_i64
      rw [hfind]
    have hsel : compile_select ⟨"Softmax", attrs⟩ input_shapes output_shapes v =
        .error (.InvalidAttributeValue "axis" (toString a) v) := by
      rw [select_softmax]
      unfold compile_softmax
      simp only [hd]
      rw [hl]
      exact softmax_with_axis_range hge
    exact compile_error_of_select hsel
  · intro c h
    obtain ⟨nt, benv, hsel, htpl, hthr, henv, b1, b2, b3⟩ := compile_ok_inv h
    rw [select_softmax] at hsel
    unfold compile_softmax compile_softmax_with_axis softmax_checked_axis at hsel
    repeat' split at hsel
    all_goals try exact Except.noConfusion hsel
    injection hsel with h5
    injection h5 with hnt hbenv
    rw [hthr, ← hnt]

theorem C4_softmax_axis_counterexample :
    compile ⟨"Softmax", [("axis", AttrValue.aInt (-10))]⟩
      [Shape.mk [1, 4] ScalarType.F32] [Shape.mk [1, 4] ScalarType.F32] 13 =
    .error (.UnimplementedVariant
      "softmax on an axis (-8) other than the second with [1,n] inputs" "Softmax") := by
  rfl

theorem C4_softmax_axis_witness :
    (compile ⟨"Softmax", ([] : List (String × AttrValue))⟩
        [Shape.mk [1, 4] ScalarType.F32] [Shape.mk [1, 4] ScalarType.F32] 13 =
      compile ⟨"Softmax", [("axis", AttrValue.aInt (-1))]⟩
        [Shape.mk [1, 4] ScalarType.F32] [Shape.mk [1, 4] ScalarType.F32] 13) ∧
    ok_threads (compile ⟨"Softmax", ([] : List (String × AttrValue))⟩
      [Shape.mk [1, 4] ScalarType.F32] [Shape.mk [1, 4] ScalarType.F32] 13) =
        some (1, 1, 1) := by
  have h := C4_softmax_axis ([] : List (String × AttrValue)) [Shape.mk [1, 4] ScalarType.F32]
    [Shape.mk [1, 4] ScalarType.F32] 13
  refine ⟨h.2.2.1 rfl (by omega) (by omega), ?_⟩
  cases hc : compile ⟨"Softmax", ([] : List (String × AttrValue))⟩
      [Shape.mk [1, 4] ScalarType.F32] [Shape.mk [1, 4] ScalarType.F32] 13 with
  | error e =>
    have hok : compile_ok (compile ⟨"Softmax", ([] : List (String × AttrValue))⟩
        [Shape.mk [1, 4] ScalarType.F32] [Shape.mk [1, 4] ScalarType.F32] 13) = true := by rfl
    rw [hc] at hok
    simp [compile_ok] at hok
  | ok c =>
    have ht := h.2.2.2.2.2 c hc
    have e1 : ok_threads (Except.ok c : Except CompileError CompiledNode) =
        some c.threads := rfl
    rw [e1, ht]

lemma intOfNat_prod : ∀ l : List Nat, (l.map Int.ofNat).prod = Int.ofNat l.prod
  | [] => rfl
  | a :: t => by
    rw [List.map_cons, List.prod_cons, List.prod_cons, intOfNat_prod t]
    rfl

lemma ceil_i64_ofNat (n : Nat) : ceil_i64 (Int.ofNat n) 4 = Int.ofNat (ceil n 4) := by
  unfold ceil_i64 ceil
  have h1 : Int.ofNat n + 4 - 1 = Int.ofNat (n + 3) := by
    show ((n : Int) + 4 - 1) = ((n + 3 : Nat) : Int)
    omega
  rw [h1]
  rw [show ((n + 4 - 1) : Nat) = n + 3 by omega]
  rfl

lemma i64_as_u32_ofNat_small {n : Nat} (h : n < 4294967296) :
    i64_as_u32 (Int.ofNat n) = n := by
  show ((n : Int) % 4294967296).toNat = n
  omega

lemma workgroup_size_small {x : Nat} (h : x ≤ 65535) :
    workgroup_size x MAX_COMPUTE_WORKGROUPS_PER_DIMENSION MAX_WORKGROUP_SIZE_X =
      .ok (as_u32 x, 1) := by
  simp only [workgroup_size, MAX_COMPUTE_WORKGROUPS_PER_DIMENSION]
  rw [if_neg (by omega)]

/-- C9: For every binary arithmetic node (Add, And, Div, Equal, Greater,
GreaterOrEqual, Less, LessOrEqual, Mod, Mul, Or, Sub) on which both the legacy
compiler (src/src/compiler.rs) and the current compiler succeed, with a nonempty
output list (so neither side panics indexing output 0) and with the x thread
count ceil(o_lens[0]/4) at most 65535: both pick the template
"endomorphism/arithmetic.wgsl", both rebind op_type to the same infix operator
string, and both dispatch (ceil(o_lens[0]/4), 1, 1) threads. -/
theorem C9_arithmetic_refinement (op : String) (attrs : List (String × AttrValue))
    (is os : List Shape) (v : Int) (c : CompiledNode) (l : LegacyCompiled)
    (hop : op ∈ ["Add", "And", "Div", "Equal", "Greater", "GreaterOrEqual", "Less",
                 "LessOrEqual", "Mod", "Mul", "Or", "Sub"])
    (hn : ceil (lens_at os 0) 4 ≤ 65535)
    (hos : os ≠ [])
    (hc : compile ⟨op, attrs⟩ is os v = .ok c)
    (hl : legacy_compile ⟨op, attrs⟩ (is.map (fun s => s.dims.map Int.ofNat))
            (os.map (fun s => s.dims.map Int.ofNat)) = .ok l) :
    c.template = "endomorphism/arithmetic.wgsl" ∧
    l.template = "endomorphism/arithmetic.wgsl" ∧
    (∃ w, binary_op_string op = .ok w ∧ legacy_binary_op_string op = .ok w ∧
      context_get c.env "op_type" = some (.tStr w) ∧
      context_get l.env "op_type" = some (.tStr w)) ∧
    c.threads = (ceil (lens_at os 0) 4, 1, 1) ∧
    l.threads = (ceil (lens_at os 0) 4, 1, 1) := by
  obtain ⟨o, rest, rfl⟩ : ∃ o rest, os = o :: rest := by
    cases os with
    | nil => exact absurd rfl hos
    | cons o rest => exact ⟨o, rest, rfl⟩
  simp only [List.mem_cons, List.not_mem_nil, or_false] at hop
  rcases hop with rfl | rfl | rfl | rfl | rfl | rfl | rfl | rfl | rfl | rfl | rfl | rfl
  · obtain ⟨nt, benv, hsel, htpl, hthr, henv, b1, b2, b3⟩ := compile_ok_inv hc
    replace hsel : compile_arithmetic ⟨_, attrs⟩ is (o :: rest) = .ok (nt, benv) := hsel
    unfold compile_arithmetic at hsel
    cases h2c : get_attribute_f32 "coefficient" (some 1.0) (Node.mk "Add" attrs) with
    | error e =>
      simp only [h2c] at hsel
      exact Except.noConfusion hsel
    | ok co =>
      simp only [h2c,
        show binary_op_string (Node.mk "Add" attrs).op_type = Except.ok "+" from rfl,
        workgroup_size_small hn] at hsel
      cases h4 : agreed_type is (o :: rest) with
      | error e =>
        simp only [h4] at hsel
        exact Except.noConfusion hsel
      | ok st =>
        simp only [h4] at hsel
        injection hsel with h5
        injection h5 with hnt hbenv
        subst hbenv
        have hn2 : ceil o.dims.prod 4 ≤ 65535 := hn
        have hltpl : legacy_ok_template (legacy_compile ⟨"Add", attrs⟩
            (is.map (fun s => s.dims.map Int.ofNat))
            ((o :: rest).map (fun s => s.dims.map Int.ofNat))) =
            some "endomorphism/arithmetic.wgsl" := rfl
        have hlthr : legacy_ok_threads (legacy_compile ⟨"Add", attrs⟩
            (is.map (fun s => s.dims.map Int.ofNat))
            ((o :: rest).map (fun s => s.dims.map Int.ofNat))) =
            some (i64_as_u32 (ceil_i64 ((o.dims.map Int.ofNat).prod) 4), 1, 1) := rfl
        have hlbind : legacy_ok_binding (legacy_compile ⟨"Add", attrs⟩
            (is.map (fun s => s.dims.map Int.ofNat))
            ((o :: rest).map (fun s => s.dims.map Int.ofNat))) "op_type" =
            some (TemplateValue.tStr "+") := rfl
        rw [hl] at hltpl hlthr hlbind
        injection hltpl with hltpl2
        injection hlthr with hlthr2
        have e1 : legacy_ok_binding (Except.ok l : Except String LegacyCompiled)
            "op_type" = context_get l.env "op_type" := rfl
        refine ⟨?_, hltpl2, ⟨"+", rfl, rfl, ?_, ?_⟩, ?_, ?_⟩
        · rw [htpl, ← hnt]
        · rw [henv, ← hnt]
          rfl
        · rw [← e1]
          exact hlbind
        · rw [hthr, ← hnt]
          show (as_u32 (ceil (lens_at (o :: rest) 0) 4), 1, 1) =
            (ceil (lens_at (o :: rest) 0) 4, 1, 1)
          rw [as_u32_small (by omega)]
        · rw [hlthr2, intOfNat_prod, ceil_i64_ofNat, i64_as_u32_ofNat_small (by omega)]
          rfl
  · obtain ⟨nt, benv, hsel, htpl, hthr, henv, b1, b2, b3⟩ := compile_ok_inv hc
    replace hsel : compile_arithmetic ⟨_, attrs⟩ is (o :: rest) = .ok (nt, benv) := hsel
    unfold compile_arithmetic at hsel
    cases h2c : get_attribute_f32 "coefficient" (some 1.0) (Node.mk "And" attrs) with
    | error e =>
      simp only [h2c] at hsel
      exact Except.noConfusion hsel
    | ok co =>
      simp only [h2c,
        show binary_op_string (Node.mk "And" attrs).op_type = Except.ok "&" from rfl,
        workgroup_size_small hn] at hsel
      cases h4 : agreed_type is (o :: rest) with
      | error e =>
        simp only [h4] at hsel
        exact Except.noConfusion hsel
      | ok st =>
        simp only [h4] at hsel
        injection hsel with h5
        injection h5 with hnt hbenv
        subst hbenv
        have hn2 : ceil o.dims.prod 4 ≤ 65535 := hn
        have hltpl : legacy_ok_template (legacy_compile ⟨"And", attrs⟩
            (is.map (fun s => s.dims.map Int.ofNat))
            ((o :: rest).map (fun s => s.dims.map Int.ofNat))) =
            some "endomorphism/arithmetic.wgsl" := rfl
        have hlthr : legacy_ok_threads (legacy_compile ⟨"And", attrs⟩
            (is.map (fun s => s.dims.map Int.ofNat))
            ((o :: rest).map (fun s => s.dims.map Int.ofNat))) =
            some (i64_as_u32 (ceil_i64 ((o.dims.map Int.ofNat).prod) 4), 1, 1) := rfl
        have hlbind : legacy_ok_binding (legacy_compile ⟨"And", attrs⟩
            (is.map (fun s => s.dims.map Int.ofNat))
            ((o :: rest).map (fun s => s.dims.map Int.ofNat))) "op_type" =
            some (TemplateValue.tStr "&") := rfl
        rw [hl] at hltpl hlthr hlbind
        injection hltpl with hltpl2
        injection hlthr with hlthr2
        have e1 : legacy_ok_binding (Except.ok l : Except String LegacyCompiled)
            "op_type" = context_get l.env "op_type" := rfl
        refine ⟨?_, hltpl2, ⟨"&", rfl, rfl, ?_, ?_⟩, ?_, ?_⟩
        · rw [htpl, ← hnt]
        · rw [henv, ← hnt]
          rfl
        · rw [← e1]
          exact hlbind
        · rw [hthr, ← hnt]
          show (as_u32 (ceil (lens_at (o :: rest) 0) 4), 1, 1) =
            (ceil (lens_at (o :: rest) 0) 4, 1, 1)
          rw [as_u32_small (by omega)]
        · rw [hlthr2, intOfNat_prod, ceil_i64_ofNat, i64_as_u32_ofNat_small (by omega)]
          rfl
  · obtain ⟨nt, benv, hsel, htpl, hthr, henv, b1, b2, b3⟩ := compile_ok_inv hc
    replace hsel : compile_arithmetic ⟨_, attrs⟩ is (o :: rest) = .ok (nt, benv) := hsel
    unfold compile_arithmetic at hsel
    cases h2c : get_attribute_f32 "coefficient" (some 1.0) (Node.mk "Div" attrs) with
    | error e =>
      simp only [h2c] at hsel
      exact Except.noConfusion hsel
    | ok co =>
      simp only [h2c,
        show binary_op_string (Node.mk "Div" attrs).op_type = Except.ok "/" from rfl,
        workgroup_size_small hn] at hsel
      cases h4 : agreed_type is (o :: rest) with
      | error e =>
        simp only [h4] at hsel
        exact Except.noConfusion hsel
      | ok st =>
        simp only [h4] at hsel
        injection hsel with h5
        injection h5 with hnt hbenv
        subst hbenv
        have hn2 : ceil o.dims.prod 4 ≤ 65535 := hn
        have hltpl : legacy_ok_template (legacy_compile ⟨"Div", attrs⟩
            (is.map (fun s => s.dims.map Int.ofNat))
            ((o :: rest).map (fun s => s.dims.map Int.ofNat))) =
            some "endomorphism/arithmetic.wgsl" := rfl
        have hlthr : legacy_ok_threads (legacy_compile ⟨"Div", attrs⟩
            (is.map (fun s => s.dims.map Int.ofNat))
            ((o :: rest).map (fun s => s.dims.map Int.ofNat))) =
            some (i64_as_u32 (ceil_i64 ((o.dims.map Int.ofNat).prod) 4), 1, 1) := rfl
        have hlbind : legacy_ok_binding (legacy_compile ⟨"Div", attrs⟩
            (is.map (fun s => s.dims.map Int.ofNat))
            ((o :: rest).map (fun s => s.dims.map Int.ofNat))) "op_type" =
            some (TemplateValue.tStr "/") := rfl
        rw [hl] at hltpl hlthr hlbind
        injection hltpl with hltpl2
        injection hlthr with hlthr2
        have e1 : legacy_ok_binding (Except.ok l : Except String LegacyCompiled)
            "op_type" = context_get l.env "op_type" := rfl
        refine ⟨?_, hltpl2, ⟨"/", rfl, rfl, ?_, ?_⟩, ?_, ?_⟩
        · rw [htpl, ← hnt]
        · rw [henv, ← hnt]
          rfl
        · rw [← e1]
          exact hlbind
        · rw [hthr, ← hnt]
          show (as_u32 (ceil (lens_at (o :: rest) 0) 4), 1, 1) =
            (ceil (lens_at (o :: rest) 0) 4, 1, 1)
          rw [as_u32_small (by omega)]
        · rw [hlthr2, intOfNat_prod, ceil_i64_ofNat, i64_as_u32_ofNat_small (by omega)]
          rfl
  · obtain ⟨nt, benv, hsel, htpl, hthr, henv, b1, b2, b3⟩ := compile_ok_inv hc
    replace hsel : compile_arithmetic ⟨_, attrs⟩ is (o :: rest) = .ok (nt, benv) := hsel
    unfold compile_arithmetic at hsel
    cases h2c : get_attribute_f32 "coefficient" (some 1.0) (Node.mk "Equal" attrs) with
    | error e =>
      simp only [h2c] at hsel
      exact Except.noConfusion hsel
    | ok co =>
      simp only [h2c,
        show binary_op_string (Node.mk "Equal" attrs).op_type = Except.ok "==" from rfl,
        workgroup_size_small hn] at hsel
      cases h4 : agreed_type is (o :: rest) with
      | error e =>
        simp only [h4] at hsel
        exact Except.noConfusion hsel
      | ok st =>
        simp only [h4] at hsel
        injection hsel with h5
        injection h5 with hnt hbenv
        subst hbenv
        have hn2 : ceil o.dims.prod 4 ≤ 65535 := hn
        have hltpl : legacy_ok_template (legacy_compile ⟨"Equal", attrs⟩
            (is.map (fun s => s.dims.map Int.ofNat))
            ((o :: rest).map (fun s => s.dims.map Int.ofNat))) =
            some "endomorphism/arithmetic.wgsl" := rfl
        have hlthr : legacy_ok_threads (legacy_compile ⟨"Equal", attrs⟩
            (is.map (fun s => s.dims.map Int.ofNat))
            ((o :: rest).map (fun s => s.dims.map Int.ofNat))) =
            some (i64_as_u32 (ceil_i64 ((o.dims.map Int.ofNat).prod) 4), 1, 1) := rfl
        have hlbind : legacy_ok_binding (legacy_compile ⟨"Equal", attrs⟩
            (is.map (fun s => s.dims.map Int.ofNat))
            ((o :: rest).map (fun s => s.dims.map Int.ofNat))) "op_type" =
            some (TemplateValue.tStr "==") := rfl
        rw [hl] at hltpl hlthr hlbind
        injection hltpl with hltpl2
        injection hlthr with hlthr2
        have e1 : legacy_ok_binding (Except.ok l : Except String LegacyCompiled)
            "op_type" = context_get l.env "op_type" := rfl
        refine ⟨?_, hltpl2, ⟨"==", rfl, rfl, ?_, ?_⟩, ?_, ?_⟩
        · rw [htpl, ← hnt]
        · rw [henv, ← hnt]
          rfl
        · rw [← e1]
          exact hlbind
        · rw [hthr, ← hnt]
          show (as_u32 (ceil (lens_at (o :: rest) 0) 4), 1, 1) =
            (ceil (lens_at (o :: rest) 0) 4, 1, 1)
          rw [as_u32_small (by omega)]
        · rw [hlthr2, intOfNat_prod, ceil_i64_ofNat, i64_as_u32_ofNat_small (by omega)]
          rfl
  · obtain ⟨nt, benv, hsel, htpl, hthr, henv, b1, b2, b3⟩ := compile_ok_inv hc
    replace hsel : compile_arithmetic ⟨_, attrs⟩ is (o :: rest) = .ok (nt, benv) := hsel
    unfold compile_arithmetic at hsel
    cases h2c : get_attribute_f32 "coefficient" (some 1.0) (Node.mk "Greater" attrs) with
    | error e =>
      simp only [h2c] at hsel
      exact Except.noConfusion hsel
    | ok co =>
      simp only [h2c,
        show binary_op_string (Node.mk "Greater" attrs).op_type = Except.ok ">" from rfl,
        workgroup_size_small hn] at hsel
      cases h4 : agreed_type is (o :: rest) with
      | error e =>
        simp only [h4] at hsel
        exact Except.noConfusion hsel
      | ok st =>
        simp only [h4] at hsel
        injection hsel with h5
        injection h5 with hnt hbenv
        subst hbenv
        have hn2 : ceil o.dims.prod 4 ≤ 65535 := hn
        have hltpl : legacy_ok_template (legacy_compile ⟨"Greater", attrs⟩
            (is.map (fun s => s.dims.map Int.ofNat))
            ((o :: rest).map (fun s => s.dims.map Int.ofNat))) =
            some "endomorphism/arithmetic.wgsl" := rfl
        have hlthr : legacy_ok_threads (legacy_compile ⟨"Greater", attrs⟩
            (is.map (fun s => s.dims.map Int.ofNat))
            ((o :: rest).map (fun s => s.dims.map Int.ofNat))) =
            some (i64_as_u32 (ceil_i64 ((o.dims.map Int.ofNat).prod) 4), 1, 1) := rfl
        have hlbind : legacy_ok_binding (legacy_compile ⟨"Greater", attrs⟩
            (is.map (fun s => s.dims.map Int.ofNat))
            ((o :: rest).map (fun s => s.dims.map Int.ofNat))) "op_type" =
            some (TemplateValue.tStr ">") := rfl
        rw [hl] at hltpl hlthr hlbind
        injection hltpl with hltpl2
        injection hlthr with hlthr2
        have e1 : legacy_ok_binding (Except.ok l : Except String LegacyCompiled)
            "op_type" = context_get l.env "op_type" := rfl
        refine ⟨?_, hltpl2, ⟨">", rfl, rfl, ?_, ?_⟩, ?_, ?_⟩
        · rw [htpl, ← hnt]
        · rw [henv, ← hnt]
          rfl
        · rw [← e1]
          exact hlbind
        · rw [hthr, ← hnt]
          show (as_u32 (ceil (lens_at (o :: rest) 0) 4), 1, 1) =
            (ceil (lens_at (o :: rest) 0) 4, 1, 1)
          rw [as_u32_small (by omega)]
        · rw [hlthr2, intOfNat_prod, ceil_i64_ofNat, i64_as_u32_ofNat_small (by omega)]
          rfl
  · obtain ⟨nt, benv, hsel, htpl, hthr, henv, b1, b2, b3⟩ := compile_ok_inv hc
    replace hsel : compile_arithmetic ⟨_, attrs⟩ is (o :: rest) = .ok (nt, benv) := hsel
    unfold compile_arithmetic at hsel
    cases h2c : get_attribute_f32 "coefficient" (some 1.0) (Node.mk "GreaterOrEqual" attrs) with
    | error e =>
      simp only [h2c] at hsel
      exact Except.noConfusion hsel
    | ok co =>
      simp only [h2c,
        show binary_op_string (Node.mk "GreaterOrEqual" attrs).op_type = Except.ok ">=" from rfl,
        workgroup_size_small hn] at hsel
      cases h4 : agreed_type is (o :: rest) with
      | error e =>
        simp only [h4] at hsel
        exact Except.noConfusion hsel
      | ok st =>
        simp only [h4] at hsel
        injection hsel with h5
        injection h5 with hnt hbenv
        subst hbenv
        have hn2 : ceil o.dims.prod 4 ≤ 65535 := hn
        have hltpl : legacy_ok_template (legacy_compile ⟨"GreaterOrEqual", attrs⟩
            (is.map (fun s => s.dims.map Int.ofNat))
            ((o :: rest).map (fun s => s.dims.map Int.ofNat))) =
            some "endomorphism/arithmetic.wgsl" := rfl
        have hlthr : legacy_ok_threads (legacy_compile ⟨"GreaterOrEqual", attrs⟩
            (is.map (fun s => s.dims.map Int.ofNat))
            ((o :: rest).map (fun s => s.dims.map Int.ofNat))) =
            some (i64_as_u32 (ceil_i64 ((o.dims.map Int.ofNat).prod) 4), 1, 1) := rfl
        have hlbind : legacy_ok_binding (legacy_compile ⟨"GreaterOrEqual", attrs⟩
            (is.map (fun s => s.dims.map Int.ofNat))
            ((o :: rest).map (fun s => s.dims.map Int.ofNat))) "op_type" =
            some (TemplateValue.tStr ">=") := rfl
        rw [hl] at hltpl hlthr hlbind
        injection hltpl with hltpl2
        injection hlthr with hlthr2
        have e1 : legacy_ok_binding (Except.ok l : Except String LegacyCompiled)
            "op_type" = context_get l.env "op_type" := rfl
        refine ⟨?_, hltpl2, ⟨">=", rfl, rfl, ?_, ?_⟩, ?_, ?_⟩
        · rw [htpl, ← hnt]
        · rw [henv, ← hnt]
          rfl
        · rw [← e1]
          exact hlbind
        · rw [hthr, ← hnt]
          show (as_u32 (ceil (lens_at (o :: rest) 0) 4), 1, 1) =
            (ceil (lens_at (o :: rest) 0) 4, 1, 1)
          rw [as_u32_small (by omega)]
        · rw [hlthr2, intOfNat_prod, ceil_i64_ofNat, i64_as_u32_ofNat_small (by omega)]
          rfl
  · obtain ⟨nt, benv, hsel, htpl, hthr, henv, b1, b2, b3⟩ := compile_ok_inv hc
    replace hsel : compile_arithmetic ⟨_, attrs⟩ is (o :: rest) = .ok (nt, benv) := hsel
    unfold compile_arithmetic at hsel
    cases h2c : get_attribute_f32 "coefficient" (some 1.0) (Node.mk "Less" attrs) with
    | error e =>
      simp only [h2c] at hsel
      exact Except.noConfusion hsel
    | ok co =>
      simp only [h2c,
        show binary_op_string (Node.mk "Less" attrs).op_type = Except.ok "<" from rfl,
        workgroup_size_small hn] at hsel
      cases h4 : agreed_type is (o :: rest) with
      | error e =>
        simp only [h4] at hsel
        exact Except.noConfusion hsel
      | ok st =>
        simp only [h4] at hsel
        injection hsel with h5
        injection h5 with hnt hbenv
        subst hbenv
        have hn2 : ceil o.dims.prod 4 ≤ 65535 := hn
        have hltpl : legacy_ok_template (legacy_compile ⟨"Less", attrs⟩
            (is.map (fun s => s.dims.map Int.ofNat))
            ((o :: rest).map (fun s => s.dims.map Int.ofNat))) =
            some "endomorphism/arithmetic.wgsl" := rfl
        have hlthr : legacy_ok_threads (legacy_compile ⟨"Less", attrs⟩
            (is.map (fun s => s.dims.map Int.ofNat))
            ((o :: rest).map (fun s => s.dims.map Int.ofNat))) =
            some (i64_as_u32 (ceil_i64 ((o.dims.map Int.ofNat).prod) 4), 1, 1) := rfl
        have hlbind : legacy_ok_binding (legacy_compile ⟨"Less", attrs⟩
            (is.map (fun s => s.dims.map Int.ofNat))
            ((o :: rest).map (fun s => s.dims.map Int.ofNat))) "op_type" =
            some (TemplateValue.tStr "<") := rfl
        rw [hl] at hltpl hlthr hlbind
        injection hltpl with hltpl2
        injection hlthr with hlthr2
        have e1 : legacy_ok_binding (Except.ok l : Except String LegacyCompiled)
            "op_type" = context_get l.env "op_type" := rfl
        refine ⟨?_, hltpl2, ⟨"<", rfl, rfl, ?_, ?_⟩, ?_, ?_⟩
        · rw [htpl, ← hnt]
        · rw [henv, ← hnt]
          rfl
        · rw [← e1]
          exact hlbind
        · rw [hthr, ← hnt]
          show (as_u32 (ceil (lens_at (o :: rest) 0) 4), 1, 1) =
            (ceil (lens_at (o :: rest) 0) 4, 1, 1)
          rw [as_u32_small (by omega)]
        · rw [hlthr2, intOfNat_prod, ceil_i64_ofNat, i64_as_u32_ofNat_small (by omega)]
          rfl
  · obtain ⟨nt, benv, hsel, htpl, hthr, henv, b1, b2, b3⟩ := compile_ok_inv hc
    replace hsel : compile_arithmetic ⟨_, attrs⟩ is (o :: rest) = .ok (nt, benv) := hsel
    unfold compile_arithmetic at hsel
    cases h2c : get_attribute_f32 "coefficient" (some 1.0) (Node.mk "LessOrEqual" attrs) with
    | error e =>
      simp only [h2c] at hsel
      exact Except.noConfusion hsel
    | ok co =>
      simp only [h2c,
        show binary_op_string (Node.mk "LessOrEqual" attrs).op_type = Except.ok "<=" from rfl,
        workgroup_size_small hn] at hsel
      cases h4 : agreed_type is (o :: rest) with
      | error e =>
        simp only [h4] at hsel
        exact Except.noConfusion hsel
      | ok st =>
        simp only [h4] at hsel
        injection hsel with h5
        injection h5 with hnt hbenv
        subst hbenv
        have hn2 : ceil o.dims.prod 4 ≤ 65535 := hn
        have hltpl : legacy_ok_template (legacy_compile ⟨"LessOrEqual", attrs⟩
            (is.map (fun s => s.dims.map Int.ofNat))
            ((o :: rest).map (fun s => s.dims.map Int.ofNat))) =
            some "endomorphism/arithmetic.wgsl" := rfl
        have hlthr : legacy_ok_threads (legacy_compile ⟨"LessOrEqual", attrs⟩
            (is.map (fun s => s.dims.map Int.ofNat))
            ((o :: rest).map (fun s => s.dims.map Int.ofNat))) =
            some (i64_as_u32 (ceil_i64 ((o.dims.map Int.ofNat).prod) 4), 1, 1) := rfl
        have hlbind : legacy_ok_binding (legacy_compile ⟨"LessOrEqual", attrs⟩
            (is.map (fun s => s.dims.map Int.ofNat))
            ((o :: rest).map (fun s => s.dims.map Int.ofNat))) "op_type" =
            some (TemplateValue.tStr "<=") := rfl
        rw [hl] at hltpl hlthr hlbind
        injection hltpl with hltpl2
        injection hlthr with hlthr2
        have e1 : legacy_ok_binding (Except.ok l : Except String LegacyCompiled)
            "op_type" = context_get l.env "op_type" := rfl
        refine ⟨?_, hltpl2, ⟨"<=", rfl, rfl, ?_, ?_⟩, ?_, ?_⟩
        · rw [htpl, ← hnt]
        · rw [henv, ← hnt]
          rfl
        · rw [← e1]
          exact hlbind
        · rw [hthr, ← hnt]
          show (as_u32 (ceil (lens_at (o :: rest) 0) 4), 1, 1) =
            (ceil (lens_at (o :: rest) 0) 4, 1, 1)
          rw [as_u32_small (by omega)]
        · rw [hlthr2, intOfNat_prod, ceil_i64_ofNat, i64_as_u32_ofNat_small (by omega)]
          rfl
  · obtain ⟨nt, benv, hsel, htpl, hthr, henv, b1, b2, b3⟩ := compile_ok_inv hc
    replace hsel : compile_arithmetic ⟨_, attrs⟩ is (o :: rest) = .ok (nt, benv) := hsel
    unfold compile_arithmetic at hsel
    cases h2c : get_attribute_f32 "coefficient" (some 1.0) (Node.mk "Mod" attrs) with
    | error e =>
      simp only [h2c] at hsel
      exact Except.noConfusion hsel
    | ok co =>
      simp only [h2c,
        show binary_op_string (Node.mk "Mod" attrs).op_type = Except.ok "%" from rfl,
        workgroup_size_small hn] at hsel
      cases h4 : agreed_type is (o :: rest) with
      | error e =>
        simp only [h4] at hsel
        exact Except.noConfusion hsel
      | ok st =>
        simp only [h4] at hsel
        injection hsel with h5
        injection h5 with hnt hbenv
        subst hbenv
        have hn2 : ceil o.dims.prod 4 ≤ 65535 := hn
        have hltpl : legacy_ok_template (legacy_compile ⟨"Mod", attrs⟩
            (is.map (fun s => s.dims.map Int.ofNat))
            ((o :: rest).map (fun s => s.dims.map Int.ofNat))) =
            some "endomorphism/arithmetic.wgsl" := rfl
        have hlthr : legacy_ok_threads (legacy_compile ⟨"Mod", attrs⟩
            (is.map (fun s => s.dims.map Int.ofNat))
            ((o :: rest).map (fun s => s.dims.map Int.ofNat))) =
            some (i64_as_u32 (ceil_i64 ((o.dims.map Int.ofNat).prod) 4), 1, 1) := rfl
        have hlbind : legacy_ok_binding (legacy_compile ⟨"Mod", attrs⟩
            (is.map (fun s => s.dims.map Int.ofNat))
            ((o :: rest).map (fun s => s.dims.map Int.ofNat))) "op_type" =
            some (TemplateValue.tStr "%") := rfl
        rw [hl] at hltpl hlthr hlbind
        injection hltpl with hltpl2
        injection hlthr with hlthr2
        have e1 : legacy_ok_binding (Except.ok l : Except String LegacyCompiled)
            "op_type" = context_get l.env "op_type" := rfl
        refine ⟨?_, hltpl2, ⟨"%", rfl, rfl, ?_, ?_⟩, ?_, ?_⟩
        · rw [htpl, ← hnt]
        · rw [henv, ← hnt]
          rfl
        · rw [← e1]
          exact hlbind
        · rw [hthr, ← hnt]
          show (as_u32 (ceil (lens_at (o :: rest) 0) 4), 1, 1) =
            (ceil (lens_at (o :: rest) 0) 4, 1, 1)
          rw [as_u32_small (by omega)]
        · rw [hlthr2, intOfNat_prod, ceil_i64_ofNat, i64_as_u32_ofNat_small (by omega)]
          rfl
  · obtain ⟨nt, benv, hsel, htpl, hthr, henv, b1, b2, b3⟩ := compile_ok_inv hc
    replace hsel : compile_arithmetic ⟨_, attrs⟩ is (o :: rest) = .ok (nt, benv) := hsel
    unfold compile_arithmetic at hsel
    cases h2c : get_attribute_f32 "coefficient" (some 1.0) (Node.mk "Mul" attrs) with
    | error e =>
      simp only [h2c] at hsel
      exact Except.noConfusion hsel
    | ok co =>
      simp only [h2c,
        show binary_op_string (Node.mk "Mul" attrs).op_type = Except.ok "*" from rfl,
        workgroup_size_small hn] at hsel
      cases h4 : agreed_type is (o :: rest) with
      | error e =>
        simp only [h4] at hsel
        exact Except.noConfusion hsel
      | ok st =>
        simp only [h4] at hsel
        injection hsel with h5
        injection h5 with hnt hbenv
        subst hbenv
        have hn2 : ceil o.dims.prod 4 ≤ 65535 := hn
        have hltpl : legacy_ok_template (legacy_compile ⟨"Mul", attrs⟩
            (is.map (fun s => s.dims.map Int.ofNat))
            ((o :: rest).map (fun s => s.dims.map Int.ofNat))) =
            some "endomorphism/arithmetic.wgsl" := rfl
        have hlthr : legacy_ok_threads (legacy_compile ⟨"Mul", attrs⟩
            (is.map (fun s => s.dims.map Int.ofNat))
            ((o :: rest).map (fun s => s.dims.map Int.ofNat))) =
            some (i64_as_u32 (ceil_i64 ((o.dims.map Int.ofNat).prod) 4), 1, 1) := rfl
        have hlbind : legacy_ok_binding (legacy_compile ⟨"Mul", attrs⟩
            (is.map (fun s => s.dims.map Int.ofNat))
            ((o :: rest).map (fun s => s.dims.map Int.ofNat))) "op_type" =
            some (TemplateValue.tStr "*") := rfl
        rw [hl] at hltpl hlthr hlbind
        injection hltpl with hltpl2
        injection hlthr with hlthr2
        have e1 : legacy_ok_binding (Except.ok l : Except String LegacyCompiled)
            "op_type" = context_get l.env "op_type" := rfl
        refine ⟨?_, hltpl2, ⟨"*", rfl, rfl, ?_, ?_⟩, ?_, ?_⟩
        · rw [htpl, ← hnt]
        · rw [henv, ← hnt]
          rfl
        · rw [← e1]
          exact hlbind
        · rw [hthr, ← hnt]
          show (as_u32 (ceil (lens_at (o :: rest) 0) 4), 1, 1) =
            (ceil (lens_at (o :: rest) 0) 4, 1, 1)
          rw [as_u32_small (by omega)]
        · rw [hlthr2, intOfNat_prod, ceil_i64_ofNat, i64_as_u32_ofNat_small (by omega)]
          rfl
  · obtain ⟨nt, benv, hsel, htpl, hthr, henv, b1, b2, b3⟩ := compile_ok_inv hc
    replace hsel : compile_arithmetic ⟨_, attrs⟩ is (o :: rest) = .ok (nt, benv) := hsel
    unfold compile_arithmetic at hsel
    cases h2c : get_attribute_f32 "coefficient" (some 1.0) (Node.mk "Or" attrs) with
    | error e =>
      simp only [h2c] at hsel
      exact Except.noConfusion hsel
    | ok co =>
      simp only [h2c,
        show binary_op_string (Node.mk "Or" attrs).op_type = Except.ok "|" from rfl,
        workgroup_size_small hn] at hsel
      cases h4 : agreed_type is (o :: rest) with
      | error e =>
        simp only [h4] at hsel
        exact Except.noConfusion hsel
      | ok st =>
        simp only [h4] at hsel
        injection hsel with h5
        injection h5 with hnt hbenv
        subst hbenv
        have hn2 : ceil o.dims.prod 4 ≤ 65535 := hn
        have hltpl : legacy_ok_template (legacy_compile ⟨"Or", attrs⟩
            (is.map (fun s => s.dims.map Int.ofNat))
            ((o :: rest).map (fun s => s.dims.map Int.ofNat))) =
            some "endomorphism/arithmetic.wgsl" := rfl
        have hlthr : legacy_ok_threads (legacy_compile ⟨"Or", attrs⟩
            (is.map (fun s => s.dims.map Int.ofNat))
            ((o :: rest).map (fun s => s.dims.map Int.ofNat))) =
            some (i64_as_u32 (ceil_i64 ((o.dims.map Int.ofNat).prod) 4), 1, 1) := rfl
        have hlbind : legacy_ok_binding (legacy_compile ⟨"Or", attrs⟩
            (is.map (fun s => s.dims.map Int.ofNat))
            ((o :: rest).map (fun s => s.dims.map Int.ofNat))) "op_type" =
            some (TemplateValue.tStr "|") := rfl
        rw [hl] at hltpl hlthr hlbind
        injection hltpl with hltpl2
        injection hlthr with hlthr2
        have e1 : legacy_ok_binding (Except.ok l : Except String LegacyCompiled)
            "op_type" = context_get l.env "op_type" := rfl
        refine ⟨?_, hltpl2, ⟨"|", rfl, rfl, ?_, ?_⟩, ?_, ?_⟩
        · rw [htpl, ← hnt]
        · rw [henv, ← hnt]
          rfl
        · rw [← e1]
          exact hlbind
        · rw [hthr, ← hnt]
          show (as_u32 (ceil (lens_at (o :: rest) 0) 4), 1, 1) =
            (ceil (lens_at (o :: rest) 0) 4, 1, 1)
          rw [as_u32_small (by omega)]
        · rw [hlthr2, intOfNat_prod, ceil_i64_ofNat, i64_as_u32_ofNat_small (by omega)]
          rfl
  · obtain ⟨nt, benv, hsel, htpl, hthr, henv, b1, b2, b3⟩ := compile_ok_inv hc
    replace hsel : compile_arithmetic ⟨_, attrs⟩ is (o :: rest) = .ok (nt, benv) := hsel
    unfold compile_arithmetic at hsel
    cases h2c : get_attribute_f32 "coefficient" (some 1.0) (Node.mk "Sub" attrs) with
    | error e =>
      simp only [h2c] at hsel
      exact Except.noConfusion hsel
    | ok co =>
      simp only [h2c,
        show binary_op_string (Node.mk "Sub" attrs).op_type = Except.ok "-" from rfl,
        workgroup_size_small hn] at hsel
      cases h4 : agreed_type is (o :: rest) with
      | error e =>
        simp only [h4] at hsel
        exact Except.noConfusion hsel
      | ok st =>
        simp only [h4] at hsel
        injection hsel with h5
        injection h5 with hnt hbenv
        subst hbenv
        have hn2 : ceil o.dims.prod 4 ≤ 65535 := hn
        have hltpl : legacy_ok_template (legacy_compile ⟨"Sub", attrs⟩
            (is.map (fun s => s.dims.map Int.ofNat))
            ((o :: rest).map (fun s => s.dims.map Int.ofNat))) =
            some "endomorphism/arithmetic.wgsl" := rfl
        have hlthr : legacy_ok_threads (legacy_compile ⟨"Sub", attrs⟩
            (is.map (fun s => s.dims.map Int.ofNat))
            ((o :: rest).map (fun s => s.dims.map Int.ofNat))) =
            some (i64_as_u32 (ceil_i64 ((o.dims.map Int.ofNat).prod) 4), 1, 1) := rfl
        have hlbind : legacy_ok_binding (legacy_compile ⟨"Sub", attrs⟩
            (is.map (fun s => s.dims.map Int.ofNat))
            ((o :: rest).map (fun s => s.dims.map Int.ofNat))) "op_type" =
            some (TemplateValue.tStr "-") := rfl
        rw [hl] at hltpl hlthr hlbind
        injection hltpl with hltpl2
        injection hlthr with hlthr2
        have e1 : legacy_ok_binding (Except.ok l : Except String LegacyCompiled)
            "op_type" = context_get l.env "op_type" := rfl
        refine ⟨?_, hltpl2, ⟨"-", rfl, rfl, ?_, ?_⟩, ?_, ?_⟩
        · rw [htpl, ← hnt]
        · rw [henv, ← hnt]
          rfl
        · rw [← e1]
          exact hlbind
        · rw [hthr, ← hnt]
          show (as_u32 (ceil (lens_at (o :: rest) 0) 4), 1, 1) =
            (ceil (lens_at (o :: rest) 0) 4, 1, 1)
          rw [as_u32_small (by omega)]
        · rw [hlthr2, intOfNat_prod, ceil_i64_ofNat, i64_as_u32_ofNat_small (by omega)]
          rfl

theorem C9_arithmetic_refinement_witness :
    ok_template (compile ⟨"Add", []⟩
      [Shape.mk [4] ScalarType.F32, Shape.mk [4] ScalarType.F32]
      [Shape.mk [4] ScalarType.F32] 13) = some "endomorphism/arithmetic.wgsl" ∧
    legacy_ok_template (legacy_compile ⟨"Add", []⟩
      ([Shape.mk [4] ScalarType.F32, Shape.mk [4] ScalarType.F32].map
        (fun s => s.dims.map Int.ofNat))
      ([Shape.mk [4] ScalarType.F32].map (fun s => s.dims.map Int.ofNat))) =
      some "endomorphism/arithmetic.wgsl" ∧
    ok_binding (compile ⟨"Add", []⟩
      [Shape.mk [4] ScalarType.F32, Shape.mk [4] ScalarType.F32]
      [Shape.mk [4] ScalarType.F32] 13) "op_type" = some (.tStr "+") ∧
    legacy_ok_binding (legacy_compile ⟨"Add", []⟩
      ([Shape.mk [4] ScalarType.F32, Shape.mk [4] ScalarType.F32].map
        (fun s => s.dims.map Int.ofNat))
      ([Shape.mk [4] ScalarType.F32].map (fun s => s.dims.map Int.ofNat))) "op_type" =
      some (.tStr "+") ∧
    ok_threads (compile ⟨"Add", []⟩
      [Shape.mk [4] ScalarType.F32, Shape.mk [4] ScalarType.F32]
      [Shape.mk [4] ScalarType.F32] 13) = some (1, 1, 1) ∧
    legacy_ok_threads (legacy_compile ⟨"Add", []⟩
      ([Shape.mk [4] ScalarType.F32, Shape.mk [4] ScalarType.F32].map
        (fun s => s.dims.map Int.ofNat))
      ([Shape.mk [4] ScalarType.F32].map (fun s => s.dims.map Int.ofNat))) =
      some (1, 1, 1) := by
  cases hc : compile ⟨"Add", []⟩
      [Shape.mk [4] ScalarType.F32, Shape.mk [4] ScalarType.F32]
      [Shape.mk [4] ScalarType.F32] 13 with
  | error e =>
    have hok : compile_ok (compile ⟨"Add", []⟩
        [Shape.mk [4] ScalarType.F32, Shape.mk [4] ScalarType.F32]
        [Shape.mk [4] ScalarType.F32] 13) = true := by rfl
    rw [hc] at hok
    simp [compile_ok] at hok
  | ok c =>
    cases hl : legacy_compile ⟨"Add", []⟩
        ([Shape.mk [4] ScalarType.F32, Shape.mk [4] ScalarType.F32].map
          (fun s => s.dims.map Int.ofNat))
        ([Shape.mk [4] ScalarType.F32].map (fun s => s.dims.map Int.ofNat)) with
    | error e =>
      have hok : legacy_ok_template (legacy_compile ⟨"Add", []⟩
          ([Shape.mk [4] ScalarType.F32, Shape.mk [4] ScalarType.F32].map
            (fun s => s.dims.map Int.ofNat))
          ([Shape.mk [4] ScalarType.F32].map (fun s => s.dims.map Int.ofNat))) =
          some "endomorphism/arithmetic.wgsl" := by rfl
      rw [hl] at hok
      simp [legacy_ok_template] at hok
    | ok l =>
      have h := C9_arithmetic_refinement "Add" [] [Shape.mk [4] ScalarType.F32, Shape.mk [4] ScalarType.F32]
        [Shape.mk [4] ScalarType.F32] 13 c l (List.mem_cons_self _ _) (by decide)
        (by decide) hc hl
      obtain ⟨ht1, ht2, ⟨w, hw1, hw2, hw3, hw4⟩, hth1, hth2⟩ := h
      have hww : (Except.ok "+" : Except CompileError String) = .ok w := hw1
      injection hww with hww2
      subst hww2
      have e1 : ok_template (Except.ok c : Except CompileError CompiledNode) =
          some c.template := rfl
      have e2 : legacy_ok_template (Except.ok l : Except String LegacyCompiled) =
          some l.template := rfl
      have e3 : ok_binding (Except.ok c : Except CompileError CompiledNode) "op_type" =
          context_get c.env "op_type" := rfl
      have e4 : legacy_ok_binding (Except.ok l : Except String LegacyCompiled) "op_type" =
          context_get l.env "op_type" := rfl
      have e5 : ok_threads (Except.ok c : Except CompileError CompiledNode) =
          some c.threads := rfl
      have e6 : legacy_ok_threads (Except.ok l : Except String LegacyCompiled) =
          some l.threads := rfl
      refine ⟨?_, ?_, ?_, ?_, ?_, ?_⟩
      · rw [e1, ht1]
      · rw [e2, ht2]
      · rw [e3, hw3]
      · rw [e4, hw4]
      · rw [e5, hth1]
        rfl
      · rw [e6, hth2]
        rfl
